import Mathlib

/-!
PTP event manager

A shallow embedding of `plugins/ptp_operator/metrics/manager.go`: the publisher
table, the threshold registry, the payload builder, `PublishEvent`/`publish`,
the state machine `GenPTPEvent`, and the registries of records and configs with
their get, add and delete methods.

Conventions of the embedding.

* Go string types (`ptp.SyncState`, `ptp.EventType`) are `String`; `int64`
  offsets are `Int` (the code only compares them).
* A Go map is an association list; a look-up returns the first binding of the
  key, and the order of the list stands for the (unspecified) order in which
  `range` visits the map.
* A pointer that may be nil is an `Option`; dereferencing `none` is a panic.
* Calls to the logger have no effect on the manager and are left out.
* The functions the manager calls that are outside this file (`fmt.Sprintf`,
  `common.CreateEvent`, `common.PublishEventViaAPI`) are parameters, held in
  the field `env` of the manager.
* An event counts as published when `common.PublishEventViaAPI` was called for
  it and returned no error; the events published are recorded in a trace.
-/

namespace Metrics

/-- Go type `ptp.SyncState`, a string type. -/
abbrev SyncState := String

/-- Go type `ptp.EventType`, a string type. -/
abbrev EventType := String

/-- Constant `ptp.FREERUN`. -/
abbrev FREERUN : SyncState := "FREERUN"

/-- Constant `ptp.LOCKED`. -/
abbrev LOCKED : SyncState := "LOCKED"

/-- Constant `ptp.HOLDOVER`. -/
abbrev HOLDOVER : SyncState := "HOLDOVER"

/-- Constant `ptp.PtpStateChange`. -/
abbrev PtpStateChange : EventType := "event.sync.ptp-status.ptp-state-change"

/-- Constant `ptp.PtpClockClassChange`. -/
abbrev PtpClockClassChange : EventType := "event.sync.ptp-status.ptp-clock-class-change"

/-- Go type `ceevent.DataType`. -/
inductive DataType where
  | NOTIFICATION
  | METRIC
  deriving DecidableEq, Repr

/-- Go type `ceevent.ValueType`. -/
inductive ValueType where
  | ENUMERATION
  | DECIMAL
  deriving DecidableEq, Repr

/-- The `interface{}` held by `ceevent.DataValue.Value`: the code stores either a
sync state or an `int64`. -/
inductive Value where
  | state (s : SyncState)
  | number (n : Int)
  deriving DecidableEq, Repr

/-- Go type `ceevent.DataValue`. -/
structure DataValue where
  Resource : String
  DataType : Metrics.DataType
  ValueType : Metrics.ValueType
  Value : Metrics.Value
  deriving DecidableEq, Repr

/-- Go type `ceevent.Data`. -/
structure Data where
  Version : String
  Values : List DataValue
  deriving DecidableEq, Repr

/-- Go type `types.EventPublisherType`, the fields the manager reads. -/
structure EventPublisherType where
  Resource : String
  PubID : String
  deriving DecidableEq, Repr

/-- Go type `ptpConfig.PtpClockThreshold`; `Close` is the handle of the
close-signal channel. -/
structure PtpClockThreshold where
  HoldOverTimeout : Int
  MaxOffsetThreshold : Int
  MinOffsetThreshold : Int
  Close : Option Nat
  deriving DecidableEq, Repr

/-- Go type `ptpConfig.LinuxPTPConfigMapUpdate`, the field the manager reads. -/
structure LinuxPTPConfigMapUpdate where
  EventThreshold : List (String × PtpClockThreshold)
  deriving DecidableEq, Repr

/-- Modelled from the spec: `stats.Stats` is declared outside this file. The spec
lists `lastSyncState` and `lastOffset` next to the rolling statistics, role and
alias; `R` stands for those remaining fields. -/
structure Stats (R : Type) where
  lastSyncState : SyncState
  lastOffset : Int
  rest : R
  deriving DecidableEq, Repr

/-- Modelled from the spec: `ceevent.Event`, the value `common.CreateEvent`
returns, is declared outside this file. The spec describes an event as an
envelope of a resource address and the payload values; by the call in `publish`
it is made from a publisher id, an event type, a resource address and a
payload, and the event holds these four. -/
structure Event where
  pubID : String
  eventType : EventType
  source : String
  data : Data
  deriving DecidableEq, Repr

/-- The functions outside this file that the manager calls, taken as parameters.
`Sprintf` is `fmt.Sprintf` applied to string operands. `CreateEvent` tells
whether `common.CreateEvent` returns without error for the publisher id, event
type, resource address and payload it is given. `PublishEventViaAPI` tells
whether `common.PublishEventViaAPI` returns without error for an event. -/
structure Environment where
  Sprintf : String → List String → String
  CreateEvent : String → EventType → String → Data → Bool
  PublishEventViaAPI : Event → Bool

/-- Go type `PTPEventManager`, the fields read on the publication path. The field
`env` is not a field of the Go type: it holds the functions outside this file
that the methods call. -/
structure PTPEventManager where
  resourcePrefix : String
  publisherTypes : List (EventType × Option EventPublisherType)
  nodeName : String
  mock : Bool
  PtpConfigMapUpdates : LinuxPTPConfigMapUpdate
  env : Environment

/-- A runtime panic of the Go program. -/
inductive Panic where
  | nilDereference
  deriving DecidableEq, Repr

/-- What one call of `GenPTPEvent` leaves behind: the record behind `oStats`, the
events published, and the panic caught by the deferred `recover`, if any. -/
structure Outcome (R : Type) where
  stats : Option (Stats R)
  events : List Event
  recovered : Option Panic
  deriving DecidableEq, Repr

/-- One call of `GenPTPEvent`: the manager as it is at the time of the call and
the arguments other than `oStats`. -/
structure Sample where
  manager : PTPEventManager
  ptpProfileName : String
  eventResourceName : String
  ptpOffset : Int
  clockState : SyncState
  eventType : EventType

/-- Go map index expression `m[k]` with the comma-ok form: `none` when the key is
absent. -/
def mapGet {K V : Type} [DecidableEq K] : List (K × V) → K → Option V
  | [], _ => none
  | (k', v) :: rest, k => if k' = k then some v else mapGet rest k

/-- A formatter for the examples, which use formats whose only verb is `%s`:
operands replace the verbs `%s` and `%v` from left to right, `%%` is a percent
sign, a verb without operand prints `%!s(MISSING)`, a percent sign that ends
the format prints `%!(NOVERB)`, and operands left over are reported in an
`%!(EXTRA ...)` suffix. -/
def demoSprintfAux : List Char → List String → String → String
  | [], [], acc => acc
  | ['%'], args, acc => demoSprintfAux [] args (acc ++ "%!(NOVERB)")
  | [], a :: args, acc =>
      acc ++ "%!(EXTRA " ++ ", ".intercalate ((a :: args).map fun x => "string=" ++ x) ++ ")"
  | '%' :: 's' :: fmt, a :: args, acc => demoSprintfAux fmt args (acc ++ a)
  | '%' :: 'v' :: fmt, a :: args, acc => demoSprintfAux fmt args (acc ++ a)
  | '%' :: 's' :: fmt, [], acc => demoSprintfAux fmt [] (acc ++ "%!s(MISSING)")
  | '%' :: 'v' :: fmt, [], acc => demoSprintfAux fmt [] (acc ++ "%!v(MISSING)")
  | '%' :: '%' :: fmt, args, acc => demoSprintfAux fmt args (acc.push '%')
  | c :: fmt, args, acc => demoSprintfAux fmt args (acc.push c)

/-- The formatter of the examples, on strings. -/
def demoSprintf (format : String) (args : List String) : String :=
  demoSprintfAux format.toList args ""

/-- Modelled from the spec: `isOffsetInRange` is defined outside this file. The
spec gives `InRange(o) ≡ min ≤ o ≤ max` with inclusive bounds; the arguments come
in the order of the calls in `GenPTPEvent`. -/
def isOffsetInRange (ptpOffset maxOffsetThreshold minOffsetThreshold : Int) : Bool :=
  decide (minOffsetThreshold ≤ ptpOffset) && decide (ptpOffset ≤ maxOffsetThreshold)

/-- Modelled from the spec: `ptpConfig.GetDefaultThreshold` is defined outside this
file. The spec gives the hard-coded default as holdOver = 5 s, max = +100,
min = -100. -/
def GetDefaultThreshold : PtpClockThreshold :=
  { HoldOverTimeout := 5, MaxOffsetThreshold := 100, MinOffsetThreshold := -100, Close := none }

/-- Method `PTPEventManager.PtpThreshold`. -/
def PtpThreshold (p : PTPEventManager) (profileName : String) : PtpClockThreshold :=
  match mapGet p.PtpConfigMapUpdates.EventThreshold profileName with
  | some t =>
      { HoldOverTimeout := t.HoldOverTimeout
        MaxOffsetThreshold := t.MaxOffsetThreshold
        MinOffsetThreshold := t.MinOffsetThreshold
        Close := t.Close }
  | none =>
      match p.PtpConfigMapUpdates.EventThreshold with
      | (_, t) :: _ =>
          { HoldOverTimeout := t.HoldOverTimeout
            MaxOffsetThreshold := t.MaxOffsetThreshold
            MinOffsetThreshold := t.MinOffsetThreshold
            Close := t.Close }
      | [] => GetDefaultThreshold

/-- Method `PTPEventManager.GetPTPEventsData`; `none` is the nil pointer. -/
def GetPTPEventsData (p : PTPEventManager) (state : SyncState) (ptpOffset : Int)
    (source : String) (eventType : EventType) : Option Data :=
  if state = "" then none
  else
    let eventSource :=
      p.env.Sprintf p.resourcePrefix [p.nodeName, p.env.Sprintf "/%s" [source]]
    let values : List DataValue :=
      if eventType ≠ PtpClockClassChange then
        [{ Resource := eventSource
           DataType := DataType.NOTIFICATION
           ValueType := ValueType.ENUMERATION
           Value := Value.state state }]
      else []
    some
      { Version := "v1"
        Values := values ++
          [{ Resource := eventSource
             DataType := DataType.METRIC
             ValueType := ValueType.DECIMAL
             Value := Value.number ptpOffset }] }

/-- Method `PTPEventManager.publish`: the events published. A nil entry of the
publisher table panics at `pubs.PubID`; a missing entry is only logged. When
`common.CreateEvent` returns an error the method returns; in mock mode
`common.PublishEventViaAPI` is not called; when it is called and returns an
error nothing is published. -/
def publish (p : PTPEventManager) (data : Data) (eventSource : String)
    (eventType : EventType) : Except Panic (List Event) :=
  match mapGet p.publisherTypes eventType with
  | some pubs =>
      match pubs with
      | none => Except.error Panic.nilDereference
      | some pub =>
          if p.env.CreateEvent pub.PubID eventType eventSource data then
            let e : Event :=
              { pubID := pub.PubID, eventType := eventType, source := eventSource, data := data }
            if !p.mock then
              if p.env.PublishEventViaAPI e then Except.ok [e] else Except.ok []
            else Except.ok []
          else Except.ok []
  | none => Except.ok []

/-- The pointer read by the index expression `p.publisherTypes[eventType]`: nil
when the key is absent or bound to nil. -/
def publisherOf (p : PTPEventManager) (eventType : EventType) : Option EventPublisherType :=
  match mapGet p.publisherTypes eventType with
  | some pubs => pubs
  | none => none

/-- Method `PTPEventManager.PublishEvent`. The field access
`p.publisherTypes[eventType].Resource` panics when the table has no publisher
for the type. -/
def PublishEvent (p : PTPEventManager) (state : SyncState) (ptpOffset : Int)
    (source : String) (eventType : EventType) : Except Panic (List Event) :=
  if state = "" then Except.ok []
  else
    let data := GetPTPEventsData p state ptpOffset source eventType
    match publisherOf p eventType with
    | none => Except.error Panic.nilDereference
    | some pub =>
        let resourceAddress := p.env.Sprintf p.resourcePrefix [p.nodeName, pub.Resource]
        match data with
        | none => Except.error Panic.nilDereference
        | some d => publish p d resourceAddress eventType

/-- Method `Stats.SetLastSyncState`. -/
def Stats.SetLastSyncState {R : Type} (s : Stats R) (state : SyncState) : Stats R :=
  { s with lastSyncState := state }

/-- Method `Stats.SetLastOffset`. -/
def Stats.SetLastOffset {R : Type} (s : Stats R) (val : Int) : Stats R :=
  { s with lastOffset := val }

/-- Method `Stats.AddValue`: the update of the rolling statistics is a parameter,
it acts on the remaining fields only. -/
def Stats.AddValue {R : Type} (addValue : R → Int → R) (s : Stats R) (val : Int) : Stats R :=
  { s with rest := addValue s.rest val }

/-- A publication followed by updates of the record, as in every publishing
branch of `GenPTPEvent`: a panic in `PublishEvent` unwinds to the deferred
`recover`, so the statements after it do not run. -/
def publishThen {R : Type} (r : Except Panic (List Event)) (s : Stats R)
    (update : Stats R → Stats R) : Outcome R :=
  match r with
  | Except.error e => { stats := some s, events := [], recovered := some e }
  | Except.ok evs => { stats := some (update s), events := evs, recovered := none }

/-- Method `PTPEventManager.GenPTPEvent`. -/
def GenPTPEvent {R : Type} (addValue : R → Int → R) (p : PTPEventManager)
    (ptpProfileName : String) (oStats : Option (Stats R)) (eventResourceName : String)
    (ptpOffset : Int) (clockState : SyncState) (eventType : EventType) : Outcome R :=
  if clockState = "" then { stats := oStats, events := [], recovered := none }
  else
    match oStats with
    | none => { stats := none, events := [], recovered := some Panic.nilDereference }
    | some s =>
      let lastClockState := s.lastSyncState
      let threshold := PtpThreshold p ptpProfileName
      if clockState = LOCKED then
        if lastClockState = FREERUN then
          if isOffsetInRange ptpOffset threshold.MaxOffsetThreshold threshold.MinOffsetThreshold then
            publishThen (PublishEvent p clockState ptpOffset eventResourceName eventType) s
              fun s => ((s.SetLastSyncState clockState).SetLastOffset ptpOffset).AddValue addValue ptpOffset
          else { stats := some s, events := [], recovered := none }
        else if lastClockState = LOCKED then
          if isOffsetInRange ptpOffset threshold.MaxOffsetThreshold threshold.MinOffsetThreshold then
            { stats := some ((s.SetLastOffset ptpOffset).AddValue addValue ptpOffset)
              events := []
              recovered := none }
          else
            let clockState := FREERUN
            publishThen (PublishEvent p clockState ptpOffset eventResourceName eventType) s
              fun s => (s.SetLastSyncState clockState).SetLastOffset ptpOffset
        else if lastClockState = HOLDOVER then
          { stats := some s, events := [], recovered := none }
        else
          let clockState :=
            if !isOffsetInRange ptpOffset threshold.MaxOffsetThreshold threshold.MinOffsetThreshold then
              FREERUN
            else clockState
          publishThen (PublishEvent p clockState ptpOffset eventResourceName eventType) s
            fun s => (s.SetLastSyncState clockState).SetLastOffset ptpOffset
      else if clockState = FREERUN then
        if lastClockState ≠ FREERUN then
          publishThen (PublishEvent p clockState ptpOffset eventResourceName eventType) s
            fun s => ((s.SetLastSyncState clockState).SetLastOffset ptpOffset).AddValue addValue ptpOffset
        else { stats := some s, events := [], recovered := none }
      else
        let clockState :=
          if !isOffsetInRange ptpOffset threshold.MaxOffsetThreshold threshold.MinOffsetThreshold then
            FREERUN
          else clockState
        publishThen (PublishEvent p clockState ptpOffset eventResourceName PtpStateChange) s
          fun s => (s.SetLastSyncState clockState).SetLastOffset ptpOffset

/-- A finite sequence of calls of `GenPTPEvent` on one record, each with the
manager of its own time: the record after the last call. -/
def GenPTPEvents {R : Type} (addValue : R → Int → R) :
    Option (Stats R) → List Sample → Option (Stats R)
  | oStats, [] => oStats
  | oStats, x :: xs =>
      GenPTPEvents addValue
        (GenPTPEvent addValue x.manager x.ptpProfileName oStats x.eventResourceName
          x.ptpOffset x.clockState x.eventType).stats xs

/-- The sync states the spec names for a record. -/
def knownState (s : SyncState) : Prop := s = FREERUN ∨ s = LOCKED ∨ s = HOLDOVER

instance (s : SyncState) : Decidable (knownState s) := by
  unfold knownState; infer_instance

/-- The payload of the event has a NOTIFICATION entry with this state. -/
def Event.carriesState (e : Event) (state : SyncState) : Prop :=
  ∃ v ∈ e.data.Values, v.DataType = DataType.NOTIFICATION ∧ v.Value = Value.state state

/-- The payload of the event has a METRIC entry with this number. -/
def Event.carriesOffset (e : Event) (ptpOffset : Int) : Prop :=
  ∃ v ∈ e.data.Values, v.DataType = DataType.METRIC ∧ v.Value = Value.number ptpOffset

instance (e : Event) (state : SyncState) : Decidable (e.carriesState state) := by
  unfold Event.carriesState; infer_instance

instance (e : Event) (ptpOffset : Int) : Decidable (e.carriesOffset ptpOffset) := by
  unfold Event.carriesOffset; infer_instance

/-- The manager publishes what it is asked to: it is not in mock mode and in its
environment `common.CreateEvent` and `common.PublishEventViaAPI` return no
error. -/
def PTPEventManager.delivers (p : PTPEventManager) : Prop :=
  p.mock = false ∧
  (∀ pubID eventType source data, p.env.CreateEvent pubID eventType source data = true) ∧
  (∀ e, p.env.PublishEventViaAPI e = true)

/-- An environment in which events are created and sent without error. -/
def demoEnv : Environment :=
  { Sprintf := demoSprintf
    CreateEvent := fun _ _ _ _ => true
    PublishEventViaAPI := fun _ => true }

/-- A manager with the publishers of two event types, no threshold entry (so the
default threshold -100/100 applies). -/
def demoManager : PTPEventManager :=
  { resourcePrefix := "/cluster/%s/ptp%s"
    publisherTypes :=
      [(PtpStateChange, some { Resource := "/sync-status/ptp-state", PubID := "pub-1" }),
       ("event.sync.sync-status.os-clock-sync-state-change",
         some { Resource := "/sync-status/os-clock", PubID := "pub-2" })]
    nodeName := "node1"
    mock := false
    PtpConfigMapUpdates := { EventThreshold := [] }
    env := demoEnv }

/-- A manager whose publisher table is empty. -/
def bareManager : PTPEventManager :=
  { resourcePrefix := "/cluster/%s/ptp%s"
    publisherTypes := []
    nodeName := "node1"
    mock := false
    PtpConfigMapUpdates := { EventThreshold := [] }
    env := demoEnv }

/-- A record with the given last state and offset 0; the remaining fields are a
counter of the values added. -/
def demoStats (state : SyncState) : Stats Nat :=
  { lastSyncState := state, lastOffset := 0, rest := 0 }

/-- A stand-in for the rolling statistics: counts the values added. -/
def countValue (n : Nat) (_ : Int) : Nat := n + 1

/-- A manager that has a publisher for the OS clock event type only. -/
def osClockManager : PTPEventManager :=
  { resourcePrefix := "/cluster/%s/ptp%s"
    publisherTypes :=
      [("event.sync.sync-status.os-clock-sync-state-change",
         some { Resource := "/sync-status/os-clock", PubID := "pub-2" })]
    nodeName := "node1"
    mock := false
    PtpConfigMapUpdates := { EventThreshold := [] }
    env := demoEnv }

/-- The publisher of `demoManager` for PTP state changes. -/
def demoPublisher : EventPublisherType :=
  { Resource := "/sync-status/ptp-state", PubID := "pub-1" }

/-- Two samples for `demoManager`: FREERUN at offset 0, then LOCKED at offset 42. -/
def demoSamples : List Sample :=
  [{ manager := demoManager, ptpProfileName := "p", eventResourceName := "eth0",
     ptpOffset := 0, clockState := FREERUN, eventType := PtpStateChange },
   { manager := demoManager, ptpProfileName := "p", eventResourceName := "eth0",
     ptpOffset := 42, clockState := LOCKED, eventType := PtpStateChange }]

/-- Go type `types.ConfigName`, a string type. -/
abbrev ConfigName := String

/-- Go type `types.IFace`, a string type. -/
abbrev IFace := String

/-- Modelled from the spec: `ptp4lconf.PTPInterface` is declared outside this file.
The spec gives an interface as a name with a role among master, slave, faulty,
passive, listening and unknown. -/
inductive PtpPortRole where
  | master
  | slave
  | faulty
  | passive
  | listening
  | unknown
  deriving DecidableEq, Repr

/-- Modelled from the spec: `ptp4lconf.PTPInterface`, a name and a role. -/
structure PTPInterface where
  Name : String
  Role : PtpPortRole
  deriving DecidableEq, Repr

/-- Go type `ptp4lconf.PTP4lConfig`, the two fields `GetPTPConfig` sets. -/
structure PTP4lConfig where
  Name : String
  Interfaces : List PTPInterface
  deriving DecidableEq, Repr

/-- Go type `PTPEventManager` with its two registries: the fields of
`PTPEventManager` above together with `Stats` (config name, then interface, to
record) and `Ptp4lConfigInterfaces` (config name to a config pointer that may be
nil). The mutex `lock` has no part in a sequential run. -/
structure ManagerState (R : Type) extends PTPEventManager where
  Stats : List (ConfigName × List (IFace × Metrics.Stats R))
  Ptp4lConfigInterfaces : List (ConfigName × Option PTP4lConfig)

/-- Go map assignment `m[k] = v`: the binding of the key is replaced where it
stands, a new key is added. -/
def mapSet {K V : Type} [DecidableEq K] : List (K × V) → K → V → List (K × V)
  | [], k, v => [(k, v)]
  | (k', v') :: rest, k, v =>
      if k' = k then (k, v) :: rest else (k', v') :: mapSet rest k v

/-- Go builtin `delete(m, k)`: no binding of the key is left. -/
def mapDelete {K V : Type} [DecidableEq K] (m : List (K × V)) (k : K) : List (K × V) :=
  m.filter fun kv => decide (kv.1 ≠ k)

/-- Method `PTPEventManager.DeleteStats`. -/
def DeleteStats {R : Type} (m : ManagerState R) (name : ConfigName) (key : IFace) :
    ManagerState R :=
  match mapGet m.Stats name with
  | some ifaces => { m with Stats := mapSet m.Stats name (mapDelete ifaces key) }
  | none => m

/-- Method `PTPEventManager.DeleteStatsConfig`. -/
def DeleteStatsConfig {R : Type} (m : ManagerState R) (key : ConfigName) : ManagerState R :=
  { m with Stats := mapDelete m.Stats key }

/-- Method `PTPEventManager.AddPTPConfig`. -/
def AddPTPConfig {R : Type} (m : ManagerState R) (fileName : ConfigName)
    (ptpCfg : Option PTP4lConfig) : ManagerState R :=
  { m with Ptp4lConfigInterfaces := mapSet m.Ptp4lConfigInterfaces fileName ptpCfg }

/-- Method `PTPEventManager.GetPTPConfig`: the manager afterwards and the config
returned. -/
def GetPTPConfig {R : Type} (m : ManagerState R) (configName : ConfigName) :
    ManagerState R × PTP4lConfig :=
  match mapGet m.Ptp4lConfigInterfaces configName with
  | some (some c) => (m, c)
  | _ =>
      let pc : PTP4lConfig := { Name := configName, Interfaces := [] }
      (AddPTPConfig m configName (some pc), pc)

/-- Method `PTPEventManager.GetStatsForInterface`: the manager afterwards and the
map returned. `NewStats` stands for `stats.NewStats`, which is defined outside
this file. -/
def GetStatsForInterface {R : Type} (NewStats : String → Metrics.Stats R)
    (m : ManagerState R) (name : ConfigName) (iface : IFace) :
    ManagerState R × List (IFace × Metrics.Stats R) :=
  match mapGet m.Stats name with
  | none =>
      let ifaces := mapSet [] iface (NewStats name)
      ({ m with Stats := mapSet m.Stats name ifaces }, ifaces)
  | some ifaces =>
      match mapGet ifaces iface with
      | some _ =>
          let ifaces := mapSet ifaces iface (NewStats name)
          ({ m with Stats := mapSet m.Stats name ifaces }, ifaces)
      | none => (m, ifaces)

/-- Method `PTPEventManager.GetStats`: the manager afterwards and the map
returned. -/
def GetStats {R : Type} (m : ManagerState R) (name : ConfigName) :
    ManagerState R × List (IFace × Metrics.Stats R) :=
  match mapGet m.Stats name with
  | none => ({ m with Stats := mapSet m.Stats name [] }, [])
  | some ifaces => (m, ifaces)

/-- Method `PTPEventManager.DeletePTPConfig`. -/
def DeletePTPConfig {R : Type} (m : ManagerState R) (key : ConfigName) : ManagerState R :=
  { m with Ptp4lConfigInterfaces := mapDelete m.Ptp4lConfigInterfaces key }

/-- Go conversion `int64(f)` of a `float64` whose value is the integer `c`: the
value itself when it lies in the range of `int64`. For a value outside that
range the Go specification leaves the result to the implementation; the value
taken here is the one of amd64, the least `int64`. -/
def int64OfFloat64 (c : Int) : Int :=
  if -2 ^ 63 ≤ c ∧ c < 2 ^ 63 then c else -2 ^ 63

/-- Method `PTPEventManager.PublishClockClassEvent`. The parameter `clockClass` is
a `float64`; the model covers the arguments whose value is an integer, given by
that integer. The field access `p.publisherTypes[eventType].Resource` panics
when the table has no publisher for the type. -/
def PublishClockClassEvent (p : PTPEventManager) (clockClass : Int) (source : String)
    (eventType : EventType) : Except Panic (List Event) :=
  let data := GetPTPEventsData p LOCKED (int64OfFloat64 clockClass) source eventType
  match publisherOf p eventType with
  | none => Except.error Panic.nilDereference
  | some pub =>
      let resourceAddress := p.env.Sprintf p.resourcePrefix [p.nodeName, pub.Resource]
      match data with
      | none => Except.error Panic.nilDereference
      | some d => publish p d resourceAddress eventType

/-- Modelled from the spec: the hot-swap primitive of the threshold registry, which
is outside this file: the threshold stored for a profile is replaced. -/
def swapThreshold (p : PTPEventManager) (profileName : String) (t : PtpClockThreshold) :
    PTPEventManager :=
  { p with
    PtpConfigMapUpdates :=
      { EventThreshold := mapSet p.PtpConfigMapUpdates.EventThreshold profileName t } }

/-- A threshold with hold-over 5 s and the range -100/100. -/
def wideThreshold : PtpClockThreshold :=
  { HoldOverTimeout := 5, MaxOffsetThreshold := 100, MinOffsetThreshold := -100, Close := some 1 }

/-- A threshold with hold-over 5 s and the range -10/10. -/
def narrowThreshold : PtpClockThreshold :=
  { HoldOverTimeout := 5, MaxOffsetThreshold := 10, MinOffsetThreshold := -10, Close := some 2 }

/-- A manager with thresholds for the profiles P and Q and the publishers of
`demoManager`. -/
def thresholdManager : PTPEventManager :=
  { demoManager with
    PtpConfigMapUpdates := { EventThreshold := [("P", wideThreshold), ("Q", narrowThreshold)] } }

/-- A manager with a clock-class publisher and a state-change publisher. -/
def clockClassManager : PTPEventManager :=
  { resourcePrefix := "/cluster/%s/ptp%s"
    publisherTypes :=
      [(PtpClockClassChange, some { Resource := "/ptp-status/clock-class", PubID := "pub-3" }),
       (PtpStateChange, some { Resource := "/sync-status/ptp-state", PubID := "pub-1" })]
    nodeName := "node1"
    mock := false
    PtpConfigMapUpdates := { EventThreshold := [] }
    env := demoEnv }

/-- The clock-class publisher of `clockClassManager`. -/
def clockClassPublisher : EventPublisherType :=
  { Resource := "/ptp-status/clock-class", PubID := "pub-3" }

/-- A stand-in for `stats.NewStats`: a record with no last state. -/
def freshStats (_ : String) : Stats Nat :=
  { lastSyncState := "", lastOffset := 0, rest := 0 }

/-- A manager that holds, for the config `ptp4l.0.config`, a record of the
interface `eth0` that is LOCKED at offset 42, and a config with that interface. -/
def demoState : ManagerState Nat :=
  { demoManager with
    Stats := [("ptp4l.0.config", [("eth0", { lastSyncState := LOCKED, lastOffset := 42, rest := 3 })])]
    Ptp4lConfigInterfaces :=
      [("ptp4l.0.config",
        some { Name := "ptp4l.0.config", Interfaces := [{ Name := "eth0", Role := PtpPortRole.slave }] })] }

/-- A manager with records and configs for the two config names `ptp4l.0.config`
and `ptp4l.1.config`. -/
def twoConfigState : ManagerState Nat :=
  { demoManager with
    Stats :=
      [("ptp4l.0.config", [("eth0", { lastSyncState := LOCKED, lastOffset := 42, rest := 3 })]),
       ("ptp4l.1.config", [("eth1", { lastSyncState := FREERUN, lastOffset := 7, rest := 1 })])]
    Ptp4lConfigInterfaces :=
      [("ptp4l.0.config", some { Name := "ptp4l.0.config", Interfaces := [] }),
       ("ptp4l.1.config", some { Name := "ptp4l.1.config", Interfaces := [] })] }

/-- The manager `clockClassManager` in mock mode. -/
def mockManager : PTPEventManager :=
  { clockClassManager with mock := true }

/-- The manager `clockClassManager` in an environment where
`common.PublishEventViaAPI` returns an error. -/
def offlineManager : PTPEventManager :=
  { clockClassManager with env := { demoEnv with PublishEventViaAPI := fun _ => false } }

/-- The manager `clockClassManager` in an environment where `common.CreateEvent`
returns an error. -/
def rejectingManager : PTPEventManager :=
  { clockClassManager with env := { demoEnv with CreateEvent := fun _ _ _ _ => false } }

/-- The state an event announces to its subscribers: the state of the first
NOTIFICATION entry of its payload, `none` when the payload has no such entry. -/
def Event.announcedState (e : Event) : Option SyncState :=
  e.data.Values.findSome? fun v =>
    match v.DataType, v.Value with
    | DataType.NOTIFICATION, Value.state s => some s
    | _, _ => none

/-- The state announced last once the events of a list are published in order:
an event that announces no state leaves the earlier announcement in place. -/
def lastAnnounced : Option SyncState → List Event → Option SyncState
  | before, [] => before
  | before, e :: es =>
      lastAnnounced (match e.announcedState with
        | some s => some s
        | none => before) es

/-- A finite sequence of calls of `GenPTPEvent` on one record, each with the
manager of its own time: the record after the last call together with the
state announced last. -/
def GenPTPEventsAnnounced {R : Type} (addValue : R → Int → R) :
    Option (Stats R) → Option SyncState → List Sample → Option (Stats R) × Option SyncState
  | oStats, announced, [] => (oStats, announced)
  | oStats, announced, x :: xs =>
      GenPTPEventsAnnounced addValue
        (GenPTPEvent addValue x.manager x.ptpProfileName oStats x.eventResourceName
          x.ptpOffset x.clockState x.eventType).stats
        (lastAnnounced announced
          (GenPTPEvent addValue x.manager x.ptpProfileName oStats x.eventResourceName
            x.ptpOffset x.clockState x.eventType).events) xs

/-- The recorded state and the announced state do not disagree: once a state was
announced, it is the last state of the record. -/
def agrees {R : Type} (oStats : Option (Stats R)) (announced : Option SyncState) : Prop :=
  match announced with
  | none => True
  | some state => oStats.map (fun s => s.lastSyncState) = some state

instance {R : Type} (oStats : Option (Stats R)) (announced : Option SyncState) :
    Decidable (agrees oStats announced) := by
  unfold agrees
  cases announced <;> infer_instance

/-- Two samples for `clockClassManager`: LOCKED at offset 0 under the state-change
type, then FREERUN at offset 7 under the clock-class type. -/
def clockClassSamples : List Sample :=
  [{ manager := clockClassManager, ptpProfileName := "p", eventResourceName := "eth0",
     ptpOffset := 0, clockState := LOCKED, eventType := PtpStateChange },
   { manager := clockClassManager, ptpProfileName := "p", eventResourceName := "eth0",
     ptpOffset := 7, clockState := FREERUN, eventType := PtpClockClassChange }]

/-! ## Auxiliary lemmas -/

theorem mapGet_of_publisherOf {p : PTPEventManager} {eventType : EventType}
    {pub : EventPublisherType} (h : publisherOf p eventType = some pub) :
    mapGet p.publisherTypes eventType = some (some pub) := by
  unfold publisherOf at h
  split at h
  · next pubs hm => rw [hm, h]
  · simp at h

theorem publish_mem {p : PTPEventManager} {data : Data} {eventSource : String}
    {eventType : EventType} {evs : List Event} {e : Event}
    (h : publish p data eventSource eventType = Except.ok evs) (he : e ∈ evs) :
    evs = [e] ∧ e.eventType = eventType ∧ e.data = data := by
  unfold publish at h
  split at h
  · split at h
    · simp at h
    · simp only at h
      split_ifs at h
      all_goals first
        | (simp at h
           subst h
           simp at he
           subst he
           simp)
        | (simp at h
           subst h
           simp at he)
  · simp at h
    subst h
    simp at he

theorem publish_registered {p : PTPEventManager} {eventType : EventType}
    {pub : EventPublisherType} (data : Data) (eventSource : String)
    (hp : publisherOf p eventType = some pub) :
    ∃ evs, publish p data eventSource eventType = Except.ok evs := by
  have hm := mapGet_of_publisherOf hp
  unfold publish
  simp only [hm]
  split_ifs <;> exact ⟨_, rfl⟩

theorem publish_delivered {p : PTPEventManager} {eventType : EventType}
    {pub : EventPublisherType} (data : Data) (eventSource : String)
    (hp : publisherOf p eventType = some pub) (hd : p.delivers) :
    ∃ e, publish p data eventSource eventType = Except.ok [e] := by
  have hm := mapGet_of_publisherOf hp
  obtain ⟨hmock, hcreate, hsend⟩ := hd
  simp [publish, hm, hmock, hcreate, hsend]

theorem payload_facts {p : PTPEventManager} {state : SyncState} {ptpOffset : Int}
    {source : String} {eventType : EventType} {e : Event}
    (h : some e.data = GetPTPEventsData p state ptpOffset source eventType) :
    e.carriesOffset ptpOffset ∧
    (eventType ≠ PtpClockClassChange → e.carriesState state) ∧
    (∀ st, e.carriesState st → st = state) ∧
    e.announcedState = if eventType = PtpClockClassChange then none else some state := by
  by_cases hs : state = ""
  · simp [GetPTPEventsData, hs] at h
  · by_cases hc : eventType = PtpClockClassChange
    · subst hc
      simp [GetPTPEventsData, hs] at h
      simp [Event.carriesOffset, Event.carriesState, Event.announcedState, h]
    · simp [GetPTPEventsData, hs, hc] at h
      simp [Event.carriesOffset, Event.carriesState, Event.announcedState, h, hc]

theorem PublishEvent_unregistered (p : PTPEventManager) (state : SyncState) (ptpOffset : Int)
    (source : String) (eventType : EventType)
    (hs : state ≠ "") (hp : publisherOf p eventType = none) :
    PublishEvent p state ptpOffset source eventType = Except.error Panic.nilDereference := by
  simp [PublishEvent, hs, hp]

theorem PublishEvent_mem {p : PTPEventManager} {state : SyncState} {ptpOffset : Int}
    {source : String} {eventType : EventType} {evs : List Event} {e : Event}
    (h : PublishEvent p state ptpOffset source eventType = Except.ok evs) (he : e ∈ evs) :
    evs = [e] ∧ e.eventType = eventType ∧
      some e.data = GetPTPEventsData p state ptpOffset source eventType := by
  unfold PublishEvent at h
  split at h
  · simp at h
    subst h
    simp at he
  · simp only at h
    split at h
    · simp at h
    · split at h
      · simp at h
      · next d hd =>
        obtain ⟨h1, h2, h3⟩ := publish_mem h he
        exact ⟨h1, h2, by rw [h3, hd]⟩

theorem PublishEvent_length_le {p : PTPEventManager} {state : SyncState} {ptpOffset : Int}
    {source : String} {eventType : EventType} {evs : List Event}
    (h : PublishEvent p state ptpOffset source eventType = Except.ok evs) : evs.length ≤ 1 := by
  cases evs with
  | nil => simp
  | cons e es =>
    have h1 := (PublishEvent_mem h (List.mem_cons_self e es)).1
    rw [h1]
    simp

theorem PublishEvent_carries {p : PTPEventManager} {state : SyncState} {ptpOffset : Int}
    {source : String} {eventType : EventType} {evs : List Event} {e : Event} {st : SyncState}
    (h : PublishEvent p state ptpOffset source eventType = Except.ok evs) (he : e ∈ evs)
    (hc : e.carriesState st) : st = state :=
  (payload_facts (PublishEvent_mem h he).2.2).2.2.1 st hc

theorem PublishEvent_registered (p : PTPEventManager) (state : SyncState) (ptpOffset : Int)
    (source : String) (eventType : EventType) (pub : EventPublisherType)
    (hs : state ≠ "") (hp : publisherOf p eventType = some pub) :
    ∃ evs, PublishEvent p state ptpOffset source eventType = Except.ok evs := by
  have hd : ∃ d, GetPTPEventsData p state ptpOffset source eventType = some d := by
    simp [GetPTPEventsData, hs]
  obtain ⟨d, hd⟩ := hd
  obtain ⟨evs, hevs⟩ := publish_registered d
    (p.env.Sprintf p.resourcePrefix [p.nodeName, pub.Resource]) hp
  exact ⟨evs, by simp [PublishEvent, hs, hp, hd, hevs]⟩

theorem PublishEvent_delivered (p : PTPEventManager) (state : SyncState) (ptpOffset : Int)
    (source : String) (eventType : EventType) (pub : EventPublisherType)
    (hs : state ≠ "") (hp : publisherOf p eventType = some pub) (hd : p.delivers) :
    ∃ e, PublishEvent p state ptpOffset source eventType = Except.ok [e] := by
  have hdata : ∃ d, GetPTPEventsData p state ptpOffset source eventType = some d := by
    simp [GetPTPEventsData, hs]
  obtain ⟨d, hdata⟩ := hdata
  obtain ⟨e, he⟩ := publish_delivered d
    (p.env.Sprintf p.resourcePrefix [p.nodeName, pub.Resource]) hp hd
  exact ⟨e, by simp [PublishEvent, hs, hp, hdata, he]⟩

theorem publishThen_stats {R : Type} (r : Except Panic (List Event)) (s : Stats R)
    (update : Stats R → Stats R) :
    (publishThen r s update).stats = some s ∨ (publishThen r s update).stats = some (update s) := by
  cases r <;> simp [publishThen]

theorem publishThen_mem_events {R : Type} {r : Except Panic (List Event)} {s : Stats R}
    {update : Stats R → Stats R} {e : Event} (h : e ∈ (publishThen r s update).events) :
    ∃ evs, r = Except.ok evs ∧ e ∈ evs := by
  cases r with
  | error x => simp [publishThen] at h
  | ok evs => exact ⟨evs, rfl, by simpa [publishThen] using h⟩

theorem GenPTPEvent_known {R : Type} (addValue : R → Int → R) (p : PTPEventManager)
    (ptpProfileName : String) (s : Stats R) (eventResourceName : String) (ptpOffset : Int)
    (clockState : SyncState) (eventType : EventType)
    (hs : knownState s.lastSyncState) (hc : clockState = "" ∨ knownState clockState) :
    ∃ s', (GenPTPEvent addValue p ptpProfileName (some s) eventResourceName ptpOffset
        clockState eventType).stats = some s' ∧ knownState s'.lastSyncState := by
  simp only [GenPTPEvent]
  split_ifs
  all_goals first
    | exact ⟨s, rfl, hs⟩
    | exact ⟨_, rfl, hs⟩
    | (rcases publishThen_stats (PublishEvent p _ ptpOffset eventResourceName _) s _ with h | h <;> rw [h]
       · exact ⟨s, rfl, hs⟩
       · refine ⟨_, rfl, ?_⟩
         simp [Stats.SetLastSyncState, Stats.SetLastOffset, Stats.AddValue, knownState] at *
         try tauto)

theorem mapGet_mapSet_self {K V : Type} [DecidableEq K] (m : List (K × V)) (k : K) (v : V) :
    mapGet (mapSet m k v) k = some v := by
  induction m with
  | nil => simp [mapSet, mapGet]
  | cons kv rest ih =>
    obtain ⟨k', v'⟩ := kv
    by_cases h : k' = k
    · simp [mapSet, mapGet, h]
    · simp [mapSet, mapGet, h, ih]

theorem mapGet_mapSet_other {K V : Type} [DecidableEq K] (m : List (K × V)) (k k' : K) (v : V)
    (h : k' ≠ k) : mapGet (mapSet m k v) k' = mapGet m k' := by
  induction m with
  | nil => simp [mapSet, mapGet, Ne.symm h]
  | cons kv rest ih =>
    obtain ⟨k0, v0⟩ := kv
    by_cases h0 : k0 = k
    · subst h0
      simp [mapSet, mapGet, Ne.symm h]
    · simp [mapSet, mapGet, h0, ih]

theorem mapDelete_cons {K V : Type} [DecidableEq K] (k0 : K) (v0 : V) (rest : List (K × V))
    (k : K) :
    mapDelete ((k0, v0) :: rest) k
      = if k0 = k then mapDelete rest k else (k0, v0) :: mapDelete rest k := by
  by_cases h : k0 = k <;> simp [mapDelete, List.filter_cons, h]

theorem mapGet_mapDelete_self {K V : Type} [DecidableEq K] (m : List (K × V)) (k : K) :
    mapGet (mapDelete m k) k = none := by
  induction m with
  | nil => simp [mapDelete, mapGet]
  | cons kv rest ih =>
    obtain ⟨k0, v0⟩ := kv
    rw [mapDelete_cons]
    by_cases h0 : k0 = k
    · simp [h0, ih]
    · simp [h0, mapGet, ih]

theorem mapGet_mapDelete_other {K V : Type} [DecidableEq K] (m : List (K × V)) (k k' : K)
    (h : k' ≠ k) : mapGet (mapDelete m k) k' = mapGet m k' := by
  induction m with
  | nil => simp [mapDelete, mapGet]
  | cons kv rest ih =>
    obtain ⟨k0, v0⟩ := kv
    rw [mapDelete_cons]
    by_cases h0 : k0 = k
    · subst h0
      simp [mapGet, Ne.symm h, ih]
    · simp [h0, mapGet, ih]

theorem mapGet_mem {K V : Type} [DecidableEq K] {m : List (K × V)} {k : K} {v : V}
    (h : mapGet m k = some v) : (k, v) ∈ m := by
  induction m with
  | nil => simp [mapGet] at h
  | cons kv rest ih =>
    obtain ⟨k0, v0⟩ := kv
    by_cases h0 : k0 = k
    · simp [mapGet, h0] at h
      simp [h0, h]
    · simp [mapGet, h0] at h
      exact List.mem_cons_of_mem _ (ih h)

/-- A publishing branch of `GenPTPEvent` for which a publisher is registered: the
record is updated and nothing panics; a manager that delivers publishes exactly
one event, of the type asked for, with the offset and, unless the type is
`PtpClockClassChange`, the state. -/
theorem publishThen_registered {R : Type} (p : PTPEventManager) (state : SyncState)
    (ptpOffset : Int) (source : String) (eventType : EventType) (pub : EventPublisherType)
    (s : Stats R) (update : Stats R → Stats R)
    (hs : state ≠ "") (hp : publisherOf p eventType = some pub) :
    (publishThen (PublishEvent p state ptpOffset source eventType) s update).stats
      = some (update s) ∧
    (publishThen (PublishEvent p state ptpOffset source eventType) s update).recovered = none ∧
    (p.delivers →
      ∃ e, (publishThen (PublishEvent p state ptpOffset source eventType) s update).events = [e] ∧
        e.eventType = eventType ∧ e.carriesOffset ptpOffset ∧
        (eventType ≠ PtpClockClassChange → e.carriesState state)) := by
  obtain ⟨evs, hevs⟩ := PublishEvent_registered p state ptpOffset source eventType pub hs hp
  refine ⟨by simp [publishThen, hevs], by simp [publishThen, hevs], ?_⟩
  intro hd
  obtain ⟨e, he⟩ := PublishEvent_delivered p state ptpOffset source eventType pub hs hp hd
  obtain ⟨_, hty, hdata⟩ := PublishEvent_mem he (List.mem_singleton.mpr rfl)
  obtain ⟨hoff, hst, _, _⟩ := payload_facts hdata
  exact ⟨e, by simp [publishThen, he], hty, hoff, hst⟩

theorem PublishEvent_ok_delivers {p : PTPEventManager} {state : SyncState} {ptpOffset : Int}
    {source : String} {eventType : EventType} {evs : List Event}
    (hs : state ≠ "") (h : PublishEvent p state ptpOffset source eventType = Except.ok evs)
    (hd : p.delivers) : ∃ e, evs = [e] := by
  cases hp : publisherOf p eventType with
  | none =>
    rw [PublishEvent_unregistered p state ptpOffset source eventType hs hp] at h
    simp at h
  | some pub =>
    obtain ⟨e, he⟩ := PublishEvent_delivered p state ptpOffset source eventType pub hs hp hd
    rw [he] at h
    exact ⟨e, by simpa using h.symm⟩

theorem PublishClockClassEvent_mem {p : PTPEventManager} {clockClass : Int} {source : String}
    {eventType : EventType} {evs : List Event} {e : Event}
    (h : PublishClockClassEvent p clockClass source eventType = Except.ok evs) (he : e ∈ evs) :
    evs = [e] ∧ e.eventType = eventType ∧
      some e.data
        = GetPTPEventsData p LOCKED (int64OfFloat64 clockClass) source eventType := by
  unfold PublishClockClassEvent at h
  simp only at h
  split at h
  · simp at h
  · split at h
    · simp at h
    · next d hd =>
      obtain ⟨h1, h2, h3⟩ := publish_mem h he
      exact ⟨h1, h2, by rw [h3, hd]⟩

theorem int64OfFloat64_of_range {c : Int} (h : -2 ^ 63 ≤ c ∧ c < 2 ^ 63) :
    int64OfFloat64 c = c := by
  unfold int64OfFloat64
  rw [if_pos h]

/-- The two ways a call of `GenPTPEvent` on a record ends: nothing is published and
the last state is kept (a branch that publishes nothing, or a panic), or
`PublishEvent` returned for a non-empty state under the type of the caller or
the state-change type, what it published is the trace, and that state and the
offset of the sample are recorded. -/
theorem GenPTPEvent_cases {R : Type} (addValue : R → Int → R) (p : PTPEventManager)
    (ptpProfileName : String) (s : Stats R) (eventResourceName : String) (ptpOffset : Int)
    (clockState : SyncState) (eventType : EventType) :
    ((GenPTPEvent addValue p ptpProfileName (some s) eventResourceName ptpOffset clockState
        eventType).events = [] ∧
      ∃ s', (GenPTPEvent addValue p ptpProfileName (some s) eventResourceName ptpOffset
          clockState eventType).stats = some s' ∧ s'.lastSyncState = s.lastSyncState) ∨
    ((GenPTPEvent addValue p ptpProfileName (some s) eventResourceName ptpOffset clockState
        eventType).recovered = none ∧
      ∃ evs state publishedType s',
        (publishedType = eventType ∨ publishedType = PtpStateChange) ∧ state ≠ "" ∧
        PublishEvent p state ptpOffset eventResourceName publishedType = Except.ok evs ∧
        (GenPTPEvent addValue p ptpProfileName (some s) eventResourceName ptpOffset clockState
          eventType).events = evs ∧
        (GenPTPEvent addValue p ptpProfileName (some s) eventResourceName ptpOffset clockState
          eventType).stats = some s' ∧
        s'.lastSyncState = state ∧ s'.lastOffset = ptpOffset) := by
  have key : ∀ (state : SyncState) (publishedType : EventType) (update : Stats R → Stats R),
      state ≠ "" → (publishedType = eventType ∨ publishedType = PtpStateChange) →
      (update s).lastSyncState = state → (update s).lastOffset = ptpOffset →
      (((publishThen (PublishEvent p state ptpOffset eventResourceName publishedType) s
            update).events = [] ∧
          ∃ s', (publishThen (PublishEvent p state ptpOffset eventResourceName publishedType) s
            update).stats = some s' ∧ s'.lastSyncState = s.lastSyncState) ∨
        ((publishThen (PublishEvent p state ptpOffset eventResourceName publishedType) s
            update).recovered = none ∧
          ∃ evs state' publishedType' s',
            (publishedType' = eventType ∨ publishedType' = PtpStateChange) ∧ state' ≠ "" ∧
            PublishEvent p state' ptpOffset eventResourceName publishedType' = Except.ok evs ∧
            (publishThen (PublishEvent p state ptpOffset eventResourceName publishedType) s
              update).events = evs ∧
            (publishThen (PublishEvent p state ptpOffset eventResourceName publishedType) s
              update).stats = some s' ∧
            s'.lastSyncState = state' ∧ s'.lastOffset = ptpOffset)) := by
    intro state publishedType update hs ht hu1 hu2
    cases h : PublishEvent p state ptpOffset eventResourceName publishedType with
    | error x => exact Or.inl ⟨by simp [publishThen], s, by simp [publishThen], rfl⟩
    | ok evs =>
      exact Or.inr ⟨by simp [publishThen], evs, state, publishedType, update s, ht, hs, h,
        by simp [publishThen], by simp [publishThen], hu1, hu2⟩
  simp only [GenPTPEvent]
  split_ifs
  all_goals first
    | exact Or.inl ⟨rfl, _, rfl, rfl⟩
    | (apply key
       all_goals first
         | exact Or.inl rfl
         | exact Or.inr rfl
         | rfl
         | decide
         | assumption)

theorem GenPTPEvent_step_agrees {R : Type} (addValue : R → Int → R) (p : PTPEventManager)
    (ptpProfileName : String) (oStats : Option (Stats R)) (eventResourceName : String)
    (ptpOffset : Int) (clockState : SyncState) (eventType : EventType)
    (announced : Option SyncState) (ht : eventType ≠ PtpClockClassChange) (hd : p.delivers)
    (ha : agrees oStats announced) :
    agrees
      (GenPTPEvent addValue p ptpProfileName oStats eventResourceName ptpOffset clockState
        eventType).stats
      (lastAnnounced announced
        (GenPTPEvent addValue p ptpProfileName oStats eventResourceName ptpOffset clockState
          eventType).events) := by
  cases oStats with
  | none =>
    by_cases hc : clockState = ""
    · simpa [GenPTPEvent, hc, lastAnnounced] using ha
    · simpa [GenPTPEvent, hc, lastAnnounced] using ha
  | some s =>
    rcases GenPTPEvent_cases addValue p ptpProfileName s eventResourceName ptpOffset clockState
        eventType with
      ⟨hev, s', hst, hlast⟩ | ⟨_, evs, state, publishedType, s', hty, hs, hpub, hev, hst, hlast, _⟩
    · rw [hev, hst]
      cases announced with
      | none => simp [lastAnnounced, agrees]
      | some a =>
        simp only [lastAnnounced, agrees, Option.map_some'] at ha ⊢
        rw [hlast]
        exact ha
    · obtain ⟨e, he⟩ := PublishEvent_ok_delivers hs hpub hd
      subst he
      have hann := (payload_facts (PublishEvent_mem hpub (List.mem_singleton.mpr rfl)).2.2).2.2.2
      have hne : publishedType ≠ PtpClockClassChange := by
        rcases hty with h | h
        · rw [h]; exact ht
        · rw [h]; decide
      rw [if_neg hne] at hann
      rw [hev, hst]
      simp [lastAnnounced, hann, agrees, hlast]

/-! ## Claims about the state machine -/

/-- C1, counterexample: on a record whose last state is LOCKED, a sample with
clock state UNKNOWN and offset 0 (inside the default range), processed by a
manager that has a state-change publisher, leaves UNKNOWN as last state. -/
theorem unknown_sample_is_stored :
    knownState (demoStats LOCKED).lastSyncState ∧
    (GenPTPEvent countValue demoManager "p" (some (demoStats LOCKED)) "eth0" 0 "UNKNOWN"
        PtpStateChange).stats
      = some { lastSyncState := "UNKNOWN", lastOffset := 0, rest := 0 } ∧
    ¬ knownState "UNKNOWN" := by
  decide

/-- C1, amended: when the last state of the record is FREERUN, LOCKED or HOLDOVER
and every sample of a finite sequence has a clock state that is empty or one of
these three, the sequence of `GenPTPEvent` calls leaves a record whose last
state is again one of the three (a one-sample sequence is a single call). -/
theorem lastSyncState_stays_known {R : Type} (addValue : R → Int → R) (s : Stats R)
    (samples : List Sample) (hs : knownState s.lastSyncState)
    (hx : ∀ x ∈ samples, x.clockState = "" ∨ knownState x.clockState) :
    ∃ s', GenPTPEvents addValue (some s) samples = some s' ∧ knownState s'.lastSyncState := by
  induction samples generalizing s with
  | nil => exact ⟨s, rfl, hs⟩
  | cons x xs ih =>
    obtain ⟨s1, h1, hk⟩ := GenPTPEvent_known addValue x.manager x.ptpProfileName s
      x.eventResourceName x.ptpOffset x.clockState x.eventType hs (hx x (List.mem_cons_self x xs))
    simp only [GenPTPEvents, h1]
    exact ih s1 hk fun y hy => hx y (List.mem_cons_of_mem x hy)

/-- C1, witness: the two samples FREERUN/0 and LOCKED/42 on a LOCKED record. -/
theorem lastSyncState_stays_known_witness :
    knownState (demoStats LOCKED).lastSyncState ∧
    (∀ x ∈ demoSamples, x.clockState = "" ∨ knownState x.clockState) ∧
    ∃ s', GenPTPEvents countValue (some (demoStats LOCKED)) demoSamples = some s' ∧
      knownState s'.lastSyncState :=
  ⟨by decide, by decide,
    lastSyncState_stays_known countValue (demoStats LOCKED) demoSamples (by decide) (by decide)⟩

/-- C2: for a threshold with min ≤ 0 ≤ max, whatever the record (and its last
state), a LOCKED sample whose offset lies in [min, max] makes `GenPTPEvent`
publish no event that carries the state FREERUN. -/
theorem locked_in_range_never_freerun {R : Type} (addValue : R → Int → R)
    (p : PTPEventManager) (ptpProfileName : String) (oStats : Option (Stats R))
    (eventResourceName : String) (ptpOffset : Int) (eventType : EventType)
    (_hmin : (PtpThreshold p ptpProfileName).MinOffsetThreshold ≤ 0)
    (_hmax : 0 ≤ (PtpThreshold p ptpProfileName).MaxOffsetThreshold)
    (hlo : (PtpThreshold p ptpProfileName).MinOffsetThreshold ≤ ptpOffset)
    (hhi : ptpOffset ≤ (PtpThreshold p ptpProfileName).MaxOffsetThreshold) :
    ∀ e ∈ (GenPTPEvent addValue p ptpProfileName oStats eventResourceName ptpOffset LOCKED
        eventType).events, ¬ e.carriesState FREERUN := by
  intro e he hc
  have hin : isOffsetInRange ptpOffset (PtpThreshold p ptpProfileName).MaxOffsetThreshold
      (PtpThreshold p ptpProfileName).MinOffsetThreshold = true := by
    simp [isOffsetInRange, hlo, hhi]
  cases oStats with
  | none => simp [GenPTPEvent, LOCKED] at he
  | some s =>
    simp only [GenPTPEvent, hin] at he
    split_ifs at he
    all_goals first
      | (simp at he)
      | (obtain ⟨evs, hr, hmem⟩ := publishThen_mem_events he
         exact absurd (PublishEvent_carries hr hmem hc) (by decide))
      | simp_all

/-- C2, witness: offset 42 under the default threshold -100/100 on a FREERUN record. -/
theorem locked_in_range_never_freerun_witness :
    (PtpThreshold demoManager "p").MinOffsetThreshold ≤ 0 ∧
    0 ≤ (PtpThreshold demoManager "p").MaxOffsetThreshold ∧
    (PtpThreshold demoManager "p").MinOffsetThreshold ≤ 42 ∧
    42 ≤ (PtpThreshold demoManager "p").MaxOffsetThreshold ∧
    ∀ e ∈ (GenPTPEvent countValue demoManager "p" (some (demoStats FREERUN)) "eth0" 42 LOCKED
        PtpStateChange).events, ¬ e.carriesState FREERUN :=
  ⟨by decide, by decide, by decide, by decide,
    locked_in_range_never_freerun countValue demoManager "p" (some (demoStats FREERUN)) "eth0" 42
      PtpStateChange (by decide) (by decide) (by decide) (by decide)⟩

/-- C4: on a record whose last state is HOLDOVER, a LOCKED sample (offset in range
or not) publishes no event and leaves the whole record unchanged. -/
theorem holdover_ignores_locked {R : Type} (addValue : R → Int → R)
    (p : PTPEventManager) (ptpProfileName : String) (s : Stats R)
    (eventResourceName : String) (ptpOffset : Int) (eventType : EventType)
    (hs : s.lastSyncState = HOLDOVER) :
    GenPTPEvent addValue p ptpProfileName (some s) eventResourceName ptpOffset LOCKED eventType
      = { stats := some s, events := [], recovered := none } := by
  simp [GenPTPEvent, hs, LOCKED, FREERUN, HOLDOVER]

/-- C4, witness: a LOCKED sample at offset 0 on a HOLDOVER record. -/
theorem holdover_ignores_locked_witness :
    (demoStats HOLDOVER).lastSyncState = HOLDOVER ∧
    GenPTPEvent countValue demoManager "p" (some (demoStats HOLDOVER)) "eth0" 0 LOCKED
        PtpStateChange
      = { stats := some (demoStats HOLDOVER), events := [], recovered := none } :=
  ⟨by decide,
    holdover_ignores_locked countValue demoManager "p" (demoStats HOLDOVER) "eth0" 0
      PtpStateChange (by decide)⟩

/-- C5, counterexample: on a FREERUN record, a sample with clock state HOLDOVER and
offset 0 (inside the default range), processed by a manager that has a
state-change publisher, leaves HOLDOVER as last state. -/
theorem holdover_sample_is_stored :
    (demoStats FREERUN).lastSyncState = FREERUN ∧
    (GenPTPEvent countValue demoManager "p" (some (demoStats FREERUN)) "eth0" 0 HOLDOVER
        PtpStateChange).stats
      = some { lastSyncState := HOLDOVER, lastOffset := 0, rest := 0 } := by
  decide

/-- C5, amended: on a record whose last state is FREERUN or LOCKED, a sample whose
clock state is not HOLDOVER (whatever its offset and event type) leaves a record
whose last state is not HOLDOVER. -/
theorem no_holdover_from_samples {R : Type} (addValue : R → Int → R)
    (p : PTPEventManager) (ptpProfileName : String) (s : Stats R)
    (eventResourceName : String) (ptpOffset : Int) (clockState : SyncState)
    (eventType : EventType)
    (hs : s.lastSyncState = FREERUN ∨ s.lastSyncState = LOCKED)
    (hc : clockState ≠ HOLDOVER) :
    ∃ s', (GenPTPEvent addValue p ptpProfileName (some s) eventResourceName ptpOffset
        clockState eventType).stats = some s' ∧ s'.lastSyncState ≠ HOLDOVER := by
  have hs' : s.lastSyncState ≠ HOLDOVER := by
    rcases hs with h | h <;> rw [h] <;> decide
  simp only [GenPTPEvent]
  split_ifs
  all_goals first
    | exact ⟨s, rfl, hs'⟩
    | exact ⟨_, rfl, hs'⟩
    | (rcases publishThen_stats (PublishEvent p _ ptpOffset eventResourceName _) s _
          with h | h <;> rw [h]
       · exact ⟨s, rfl, hs'⟩
       · refine ⟨_, rfl, ?_⟩
         simp [Stats.SetLastSyncState, Stats.SetLastOffset, Stats.AddValue] at *
         try tauto)

/-- C5, witness: a LOCKED sample at offset 500 on a LOCKED record. -/
theorem no_holdover_from_samples_witness :
    ((demoStats LOCKED).lastSyncState = FREERUN ∨ (demoStats LOCKED).lastSyncState = LOCKED) ∧
    LOCKED ≠ HOLDOVER ∧
    ∃ s', (GenPTPEvent countValue demoManager "p" (some (demoStats LOCKED)) "eth0" 500
        LOCKED PtpStateChange).stats = some s' ∧ s'.lastSyncState ≠ HOLDOVER :=
  ⟨by decide, by decide,
    no_holdover_from_samples countValue demoManager "p" (demoStats LOCKED) "eth0" 500 LOCKED
      PtpStateChange (by decide) (by decide)⟩

/-- C10: on a record whose last state is LOCKED, a LOCKED sample whose offset is in
[min, max] publishes no event and updates the offset only: the last state stays
LOCKED, the last offset becomes the offset of the sample, and the offset is
added to the statistics. -/
theorem locked_in_range_after_locked {R : Type} (addValue : R → Int → R)
    (p : PTPEventManager) (ptpProfileName : String) (s : Stats R)
    (eventResourceName : String) (ptpOffset : Int) (eventType : EventType)
    (hs : s.lastSyncState = LOCKED)
    (hlo : (PtpThreshold p ptpProfileName).MinOffsetThreshold ≤ ptpOffset)
    (hhi : ptpOffset ≤ (PtpThreshold p ptpProfileName).MaxOffsetThreshold) :
    GenPTPEvent addValue p ptpProfileName (some s) eventResourceName ptpOffset LOCKED eventType
      = { stats := some { lastSyncState := LOCKED, lastOffset := ptpOffset,
                          rest := addValue s.rest ptpOffset }
          events := []
          recovered := none } := by
  have hin : isOffsetInRange ptpOffset (PtpThreshold p ptpProfileName).MaxOffsetThreshold
      (PtpThreshold p ptpProfileName).MinOffsetThreshold = true := by
    simp [isOffsetInRange, hlo, hhi]
  simp [GenPTPEvent, hs, hin, Stats.SetLastOffset, Stats.AddValue, LOCKED, FREERUN]

/-- C10, witness: offset 42 under the default threshold -100/100, with no
publisher registered at all. -/
theorem locked_in_range_after_locked_witness :
    (demoStats LOCKED).lastSyncState = LOCKED ∧
    (PtpThreshold bareManager "p").MinOffsetThreshold ≤ 42 ∧
    42 ≤ (PtpThreshold bareManager "p").MaxOffsetThreshold ∧
    GenPTPEvent countValue bareManager "p" (some (demoStats LOCKED)) "eth0" 42 LOCKED
        PtpStateChange
      = { stats := some { lastSyncState := LOCKED, lastOffset := 42,
                          rest := countValue (demoStats LOCKED).rest 42 }
          events := []
          recovered := none } :=
  ⟨by decide, by decide, by decide,
    locked_in_range_after_locked countValue bareManager "p" (demoStats LOCKED) "eth0" 42
      PtpStateChange (by decide) (by decide) (by decide)⟩

/-- C3, counterexample: a LOCKED sample at offset 500 (outside the default range
-100/100) on a LOCKED record. With an empty publisher table the call panics,
publishes nothing and leaves the record LOCKED; in mock mode, when
`common.PublishEventViaAPI` returns an error and when `common.CreateEvent`
returns an error it publishes nothing although it records FREERUN; under the
clock-class type it publishes one event, which does not carry FREERUN. -/
theorem out_of_range_not_announced :
    (demoStats LOCKED).lastSyncState = LOCKED ∧
    ¬ ((PtpThreshold bareManager "p").MinOffsetThreshold ≤ 500 ∧
        500 ≤ (PtpThreshold bareManager "p").MaxOffsetThreshold) ∧
    GenPTPEvent countValue bareManager "p" (some (demoStats LOCKED)) "eth0" 500 LOCKED
        PtpStateChange
      = { stats := some (demoStats LOCKED), events := [],
          recovered := some Panic.nilDereference } ∧
    GenPTPEvent countValue mockManager "p" (some (demoStats LOCKED)) "eth0" 500 LOCKED
        PtpStateChange
      = { stats := some { lastSyncState := FREERUN, lastOffset := 500, rest := 0 },
          events := [], recovered := none } ∧
    GenPTPEvent countValue offlineManager "p" (some (demoStats LOCKED)) "eth0" 500 LOCKED
        PtpStateChange
      = { stats := some { lastSyncState := FREERUN, lastOffset := 500, rest := 0 },
          events := [], recovered := none } ∧
    GenPTPEvent countValue rejectingManager "p" (some (demoStats LOCKED)) "eth0" 500 LOCKED
        PtpStateChange
      = { stats := some { lastSyncState := FREERUN, lastOffset := 500, rest := 0 },
          events := [], recovered := none } ∧
    (GenPTPEvent countValue clockClassManager "p" (some (demoStats LOCKED)) "eth0" 500 LOCKED
        PtpClockClassChange).events.length = 1 ∧
    (∀ e ∈ (GenPTPEvent countValue clockClassManager "p" (some (demoStats LOCKED)) "eth0" 500
        LOCKED PtpClockClassChange).events, ¬ e.carriesState FREERUN) := by
  decide

/-- C3, amended: on a record whose last state is LOCKED, a LOCKED sample whose
offset is outside [min, max], for whose event type a publisher is registered,
leaves FREERUN as last state and the offset as last offset, without panic; when
moreover the manager is not in mock mode and the event is created and sent
without error, exactly one event is published, which has the event type of the
caller and carries the offset and, unless that type is `PtpClockClassChange`,
the state FREERUN. -/
theorem locked_out_of_range_after_locked {R : Type} (addValue : R → Int → R)
    (p : PTPEventManager) (ptpProfileName : String) (s : Stats R)
    (eventResourceName : String) (ptpOffset : Int) (eventType : EventType)
    (pub : EventPublisherType)
    (hs : s.lastSyncState = LOCKED)
    (hr : ¬ ((PtpThreshold p ptpProfileName).MinOffsetThreshold ≤ ptpOffset ∧
        ptpOffset ≤ (PtpThreshold p ptpProfileName).MaxOffsetThreshold))
    (hp : publisherOf p eventType = some pub) :
    (GenPTPEvent addValue p ptpProfileName (some s) eventResourceName ptpOffset LOCKED
        eventType).stats
      = some { s with lastSyncState := FREERUN, lastOffset := ptpOffset } ∧
    (GenPTPEvent addValue p ptpProfileName (some s) eventResourceName ptpOffset LOCKED
        eventType).recovered = none ∧
    (p.delivers →
      ∃ e, (GenPTPEvent addValue p ptpProfileName (some s) eventResourceName ptpOffset LOCKED
          eventType).events = [e] ∧
        e.eventType = eventType ∧ e.carriesOffset ptpOffset ∧
        (eventType ≠ PtpClockClassChange → e.carriesState FREERUN)) := by
  have hout : isOffsetInRange ptpOffset (PtpThreshold p ptpProfileName).MaxOffsetThreshold
      (PtpThreshold p ptpProfileName).MinOffsetThreshold = false := by
    simpa [isOffsetInRange] using hr
  have hgen : GenPTPEvent addValue p ptpProfileName (some s) eventResourceName ptpOffset LOCKED
      eventType
      = publishThen (PublishEvent p FREERUN ptpOffset eventResourceName eventType) s
          (fun s => (s.SetLastSyncState FREERUN).SetLastOffset ptpOffset) := by
    simp [GenPTPEvent, hs, hout, LOCKED, FREERUN]
  rw [hgen]
  exact publishThen_registered p FREERUN ptpOffset eventResourceName eventType pub s _
    (by decide) hp

/-- C3, witness: offset 500 under the default threshold -100/100, published under
the state-change type. -/
theorem locked_out_of_range_after_locked_witness :
    (demoStats LOCKED).lastSyncState = LOCKED ∧
    ¬ ((PtpThreshold demoManager "p").MinOffsetThreshold ≤ 500 ∧
        500 ≤ (PtpThreshold demoManager "p").MaxOffsetThreshold) ∧
    publisherOf demoManager PtpStateChange = some demoPublisher ∧
    demoManager.delivers ∧
    PtpStateChange ≠ PtpClockClassChange ∧
    (GenPTPEvent countValue demoManager "p" (some (demoStats LOCKED)) "eth0" 500 LOCKED
        PtpStateChange).stats
      = some { demoStats LOCKED with lastSyncState := FREERUN, lastOffset := 500 } ∧
    ∃ e, (GenPTPEvent countValue demoManager "p" (some (demoStats LOCKED)) "eth0" 500 LOCKED
        PtpStateChange).events = [e] ∧
      e.eventType = PtpStateChange ∧ e.carriesOffset 500 ∧
      (PtpStateChange ≠ PtpClockClassChange → e.carriesState FREERUN) :=
  ⟨by decide, by decide, by decide, ⟨rfl, fun _ _ _ _ => rfl, fun _ => rfl⟩, by decide,
    (locked_out_of_range_after_locked countValue demoManager "p" (demoStats LOCKED) "eth0" 500
      PtpStateChange demoPublisher (by decide) (by decide) (by decide)).1,
    (locked_out_of_range_after_locked countValue demoManager "p" (demoStats LOCKED) "eth0" 500
      PtpStateChange demoPublisher (by decide) (by decide) (by decide)).2.2
      ⟨rfl, fun _ _ _ _ => rfl, fun _ => rfl⟩⟩

/-- C6, counterexample: a LOCKED sample at offset 42 (inside the default range
-100/100) on a FREERUN record. With an empty publisher table the call panics,
publishes nothing and leaves the record FREERUN; in mock mode, when
`common.PublishEventViaAPI` returns an error and when `common.CreateEvent`
returns an error it publishes nothing although it records LOCKED; under the
clock-class type it publishes one event, which does not carry LOCKED. -/
theorem relock_not_announced :
    (demoStats FREERUN).lastSyncState = FREERUN ∧
    ((PtpThreshold bareManager "p").MinOffsetThreshold ≤ 42 ∧
        42 ≤ (PtpThreshold bareManager "p").MaxOffsetThreshold) ∧
    GenPTPEvent countValue bareManager "p" (some (demoStats FREERUN)) "eth0" 42 LOCKED
        PtpStateChange
      = { stats := some (demoStats FREERUN), events := [],
          recovered := some Panic.nilDereference } ∧
    GenPTPEvent countValue mockManager "p" (some (demoStats FREERUN)) "eth0" 42 LOCKED
        PtpStateChange
      = { stats := some { lastSyncState := LOCKED, lastOffset := 42, rest := 1 },
          events := [], recovered := none } ∧
    GenPTPEvent countValue offlineManager "p" (some (demoStats FREERUN)) "eth0" 42 LOCKED
        PtpStateChange
      = { stats := some { lastSyncState := LOCKED, lastOffset := 42, rest := 1 },
          events := [], recovered := none } ∧
    GenPTPEvent countValue rejectingManager "p" (some (demoStats FREERUN)) "eth0" 42 LOCKED
        PtpStateChange
      = { stats := some { lastSyncState := LOCKED, lastOffset := 42, rest := 1 },
          events := [], recovered := none } ∧
    (GenPTPEvent countValue clockClassManager "p" (some (demoStats FREERUN)) "eth0" 42 LOCKED
        PtpClockClassChange).events.length = 1 ∧
    (∀ e ∈ (GenPTPEvent countValue clockClassManager "p" (some (demoStats FREERUN)) "eth0" 42
        LOCKED PtpClockClassChange).events, ¬ e.carriesState LOCKED) := by
  decide

/-- C6, amended: on a record whose last state is FREERUN, a LOCKED sample whose
offset is in [min, max], for whose event type a publisher is registered, leaves
LOCKED as last state and the offset as last offset (the offset is also added to
the statistics), without panic; when moreover the manager is not in mock mode
and the event is created and sent without error, exactly one event is
published, which has the event type of the caller and carries the offset and,
unless that type is `PtpClockClassChange`, the state LOCKED. A LOCKED sample
whose offset is out of range publishes nothing and leaves the record
unchanged. -/
theorem locked_after_freerun {R : Type} (addValue : R → Int → R)
    (p : PTPEventManager) (ptpProfileName : String) (s : Stats R)
    (eventResourceName : String) (ptpOffset : Int) (eventType : EventType)
    (hs : s.lastSyncState = FREERUN) :
    (((PtpThreshold p ptpProfileName).MinOffsetThreshold ≤ ptpOffset ∧
        ptpOffset ≤ (PtpThreshold p ptpProfileName).MaxOffsetThreshold) →
      ∀ pub, publisherOf p eventType = some pub →
        (GenPTPEvent addValue p ptpProfileName (some s) eventResourceName ptpOffset LOCKED
            eventType).stats
          = some { lastSyncState := LOCKED, lastOffset := ptpOffset,
                   rest := addValue s.rest ptpOffset } ∧
        (GenPTPEvent addValue p ptpProfileName (some s) eventResourceName ptpOffset LOCKED
            eventType).recovered = none ∧
        (p.delivers →
          ∃ e, (GenPTPEvent addValue p ptpProfileName (some s) eventResourceName ptpOffset
              LOCKED eventType).events = [e] ∧
            e.eventType = eventType ∧ e.carriesOffset ptpOffset ∧
            (eventType ≠ PtpClockClassChange → e.carriesState LOCKED))) ∧
    (¬ ((PtpThreshold p ptpProfileName).MinOffsetThreshold ≤ ptpOffset ∧
        ptpOffset ≤ (PtpThreshold p ptpProfileName).MaxOffsetThreshold) →
      GenPTPEvent addValue p ptpProfileName (some s) eventResourceName ptpOffset LOCKED
          eventType
        = { stats := some s, events := [], recovered := none }) := by
  constructor
  · intro hr pub hp
    have hin : isOffsetInRange ptpOffset (PtpThreshold p ptpProfileName).MaxOffsetThreshold
        (PtpThreshold p ptpProfileName).MinOffsetThreshold = true := by
      simpa [isOffsetInRange] using hr
    have hgen : GenPTPEvent addValue p ptpProfileName (some s) eventResourceName ptpOffset
        LOCKED eventType
        = publishThen (PublishEvent p LOCKED ptpOffset eventResourceName eventType) s
            (fun s =>
              ((s.SetLastSyncState LOCKED).SetLastOffset ptpOffset).AddValue addValue
                ptpOffset) := by
      simp [GenPTPEvent, hs, hin, LOCKED, FREERUN]
    rw [hgen]
    exact publishThen_registered p LOCKED ptpOffset eventResourceName eventType pub s _
      (by decide) hp
  · intro hr
    have hout : isOffsetInRange ptpOffset (PtpThreshold p ptpProfileName).MaxOffsetThreshold
        (PtpThreshold p ptpProfileName).MinOffsetThreshold = false := by
      simpa [isOffsetInRange] using hr
    simp [GenPTPEvent, hs, hout, LOCKED, FREERUN]

/-- C6, witness: offsets 42 (in range) and 500 (out of range) under the default
threshold -100/100. -/
theorem locked_after_freerun_witness :
    (demoStats FREERUN).lastSyncState = FREERUN ∧
    ((PtpThreshold demoManager "p").MinOffsetThreshold ≤ 42 ∧
        42 ≤ (PtpThreshold demoManager "p").MaxOffsetThreshold) ∧
    publisherOf demoManager PtpStateChange = some demoPublisher ∧
    demoManager.delivers ∧
    (GenPTPEvent countValue demoManager "p" (some (demoStats FREERUN)) "eth0" 42 LOCKED
        PtpStateChange).stats
      = some { lastSyncState := LOCKED, lastOffset := 42,
               rest := countValue (demoStats FREERUN).rest 42 } ∧
    (∃ e, (GenPTPEvent countValue demoManager "p" (some (demoStats FREERUN)) "eth0" 42 LOCKED
        PtpStateChange).events = [e] ∧
      e.eventType = PtpStateChange ∧ e.carriesOffset 42 ∧
      (PtpStateChange ≠ PtpClockClassChange → e.carriesState LOCKED)) ∧
    ¬ ((PtpThreshold demoManager "p").MinOffsetThreshold ≤ 500 ∧
        500 ≤ (PtpThreshold demoManager "p").MaxOffsetThreshold) ∧
    GenPTPEvent countValue demoManager "p" (some (demoStats FREERUN)) "eth0" 500 LOCKED
        PtpStateChange
      = { stats := some (demoStats FREERUN), events := [], recovered := none } :=
  ⟨by decide, by decide, by decide, ⟨rfl, fun _ _ _ _ => rfl, fun _ => rfl⟩,
    ((locked_after_freerun countValue demoManager "p" (demoStats FREERUN) "eth0" 42
      PtpStateChange (by decide)).1 (by decide) demoPublisher (by decide)).1,
    ((locked_after_freerun countValue demoManager "p" (demoStats FREERUN) "eth0" 42
      PtpStateChange (by decide)).1 (by decide) demoPublisher (by decide)).2.2
      ⟨rfl, fun _ _ _ _ => rfl, fun _ => rfl⟩,
    by decide,
    (locked_after_freerun countValue demoManager "p" (demoStats FREERUN) "eth0" 500
      PtpStateChange (by decide)).2 (by decide)⟩

/-- C7, counterexample: a FREERUN sample at offset 7 on a LOCKED record. With an
empty publisher table the call panics, publishes nothing and leaves the record
LOCKED; in mock mode, when `common.PublishEventViaAPI` returns an error and
when `common.CreateEvent` returns an error it publishes nothing although it
records FREERUN; under the clock-class type it publishes one event, which does
not carry FREERUN. -/
theorem freerun_not_announced :
    (demoStats LOCKED).lastSyncState ≠ FREERUN ∧
    GenPTPEvent countValue bareManager "p" (some (demoStats LOCKED)) "eth0" 7 FREERUN
        PtpStateChange
      = { stats := some (demoStats LOCKED), events := [],
          recovered := some Panic.nilDereference } ∧
    GenPTPEvent countValue mockManager "p" (some (demoStats LOCKED)) "eth0" 7 FREERUN
        PtpStateChange
      = { stats := some { lastSyncState := FREERUN, lastOffset := 7, rest := 1 },
          events := [], recovered := none } ∧
    GenPTPEvent countValue offlineManager "p" (some (demoStats LOCKED)) "eth0" 7 FREERUN
        PtpStateChange
      = { stats := some { lastSyncState := FREERUN, lastOffset := 7, rest := 1 },
          events := [], recovered := none } ∧
    GenPTPEvent countValue rejectingManager "p" (some (demoStats LOCKED)) "eth0" 7 FREERUN
        PtpStateChange
      = { stats := some { lastSyncState := FREERUN, lastOffset := 7, rest := 1 },
          events := [], recovered := none } ∧
    (GenPTPEvent countValue clockClassManager "p" (some (demoStats LOCKED)) "eth0" 7 FREERUN
        PtpClockClassChange).events.length = 1 ∧
    (∀ e ∈ (GenPTPEvent countValue clockClassManager "p" (some (demoStats LOCKED)) "eth0" 7
        FREERUN PtpClockClassChange).events, ¬ e.carriesState FREERUN) := by
  decide

/-- C7, amended: a FREERUN sample, whatever its offset and the threshold, publishes
nothing and leaves the record unchanged when the last state is already FREERUN.
For every other last state, when a publisher is registered for the event type
of the caller, it leaves FREERUN as last state and the offset as last offset
(the offset is also added to the statistics), without panic; when moreover the
manager is not in mock mode and the event is created and sent without error,
exactly one event is published, which has the event type of the caller and
carries the offset and, unless that type is `PtpClockClassChange`, the state
FREERUN. -/
theorem freerun_sample {R : Type} (addValue : R → Int → R)
    (p : PTPEventManager) (ptpProfileName : String) (s : Stats R)
    (eventResourceName : String) (ptpOffset : Int) (eventType : EventType) :
    (s.lastSyncState = FREERUN →
      GenPTPEvent addValue p ptpProfileName (some s) eventResourceName ptpOffset FREERUN
          eventType
        = { stats := some s, events := [], recovered := none }) ∧
    (s.lastSyncState ≠ FREERUN →
      ∀ pub, publisherOf p eventType = some pub →
        (GenPTPEvent addValue p ptpProfileName (some s) eventResourceName ptpOffset FREERUN
            eventType).stats
          = some { lastSyncState := FREERUN, lastOffset := ptpOffset,
                   rest := addValue s.rest ptpOffset } ∧
        (GenPTPEvent addValue p ptpProfileName (some s) eventResourceName ptpOffset FREERUN
            eventType).recovered = none ∧
        (p.delivers →
          ∃ e, (GenPTPEvent addValue p ptpProfileName (some s) eventResourceName ptpOffset
              FREERUN eventType).events = [e] ∧
            e.eventType = eventType ∧ e.carriesOffset ptpOffset ∧
            (eventType ≠ PtpClockClassChange → e.carriesState FREERUN))) := by
  constructor
  · intro hs
    simp [GenPTPEvent, hs, LOCKED, FREERUN]
  · intro hs pub hp
    have hs' : ¬ s.lastSyncState = "FREERUN" := hs
    have hgen : GenPTPEvent addValue p ptpProfileName (some s) eventResourceName ptpOffset
        FREERUN eventType
        = publishThen (PublishEvent p FREERUN ptpOffset eventResourceName eventType) s
            (fun s =>
              ((s.SetLastSyncState FREERUN).SetLastOffset ptpOffset).AddValue addValue
                ptpOffset) := by
      simp [GenPTPEvent, hs', LOCKED, FREERUN]
    rw [hgen]
    exact publishThen_registered p FREERUN ptpOffset eventResourceName eventType pub s _
      (by decide) hp

/-- C7, witness: a FREERUN sample at offset 7 on a FREERUN record and on a
HOLDOVER record. -/
theorem freerun_sample_witness :
    (demoStats FREERUN).lastSyncState = FREERUN ∧
    GenPTPEvent countValue demoManager "p" (some (demoStats FREERUN)) "eth0" 7 FREERUN
        PtpStateChange
      = { stats := some (demoStats FREERUN), events := [], recovered := none } ∧
    (demoStats HOLDOVER).lastSyncState ≠ FREERUN ∧
    publisherOf demoManager PtpStateChange = some demoPublisher ∧
    demoManager.delivers ∧
    (GenPTPEvent countValue demoManager "p" (some (demoStats HOLDOVER)) "eth0" 7 FREERUN
        PtpStateChange).stats
      = some { lastSyncState := FREERUN, lastOffset := 7,
               rest := countValue (demoStats HOLDOVER).rest 7 } ∧
    ∃ e, (GenPTPEvent countValue demoManager "p" (some (demoStats HOLDOVER)) "eth0" 7 FREERUN
        PtpStateChange).events = [e] ∧
      e.eventType = PtpStateChange ∧ e.carriesOffset 7 ∧
      (PtpStateChange ≠ PtpClockClassChange → e.carriesState FREERUN) :=
  ⟨by decide,
    (freerun_sample countValue demoManager "p" (demoStats FREERUN) "eth0" 7
      PtpStateChange).1 (by decide),
    by decide, by decide, ⟨rfl, fun _ _ _ _ => rfl, fun _ => rfl⟩,
    ((freerun_sample countValue demoManager "p" (demoStats HOLDOVER) "eth0" 7
      PtpStateChange).2 (by decide) demoPublisher (by decide)).1,
    ((freerun_sample countValue demoManager "p" (demoStats HOLDOVER) "eth0" 7
      PtpStateChange).2 (by decide) demoPublisher (by decide)).2.2
      ⟨rfl, fun _ _ _ _ => rfl, fun _ => rfl⟩⟩

/-- C8, counterexample: a sample with clock state UNKNOWN at offset 0 on a LOCKED
record. A manager that has a publisher for the OS clock type only, asked under
that type, panics and publishes nothing; a manager with a state-change
publisher publishes nothing in mock mode, when `common.PublishEventViaAPI`
returns an error and when `common.CreateEvent` returns an error, although it
records UNKNOWN. -/
theorem unknown_state_not_announced :
    ("UNKNOWN" : SyncState) ≠ "" ∧ ("UNKNOWN" : SyncState) ≠ LOCKED ∧
    ("UNKNOWN" : SyncState) ≠ FREERUN ∧
    publisherOf osClockManager "event.sync.sync-status.os-clock-sync-state-change"
      = some { Resource := "/sync-status/os-clock", PubID := "pub-2" } ∧
    GenPTPEvent countValue osClockManager "p" (some (demoStats LOCKED)) "eth0" 0 "UNKNOWN"
        "event.sync.sync-status.os-clock-sync-state-change"
      = { stats := some (demoStats LOCKED), events := [],
          recovered := some Panic.nilDereference } ∧
    GenPTPEvent countValue mockManager "p" (some (demoStats LOCKED)) "eth0" 0 "UNKNOWN"
        PtpStateChange
      = { stats := some { lastSyncState := "UNKNOWN", lastOffset := 0, rest := 0 },
          events := [], recovered := none } ∧
    GenPTPEvent countValue offlineManager "p" (some (demoStats LOCKED)) "eth0" 0 "UNKNOWN"
        PtpStateChange
      = { stats := some { lastSyncState := "UNKNOWN", lastOffset := 0, rest := 0 },
          events := [], recovered := none } ∧
    GenPTPEvent countValue rejectingManager "p" (some (demoStats LOCKED)) "eth0" 0 "UNKNOWN"
        PtpStateChange
      = { stats := some { lastSyncState := "UNKNOWN", lastOffset := 0, rest := 0 },
          events := [], recovered := none } := by
  decide

/-- C8, amended: a sample whose clock state is non-empty and neither LOCKED nor
FREERUN, for every last state and every event type of the caller, when a
publisher is registered for the PTP state-change type, records without panic
the clock state of the sample when the offset is in [min, max] and FREERUN
otherwise, together with the offset; when moreover the manager is not in mock
mode and the event is created and sent without error, exactly one event is
published, and that event is of the PTP state-change type and carries the
recorded state and the offset. -/
theorem unknown_state_publishes_state_change {R : Type} (addValue : R → Int → R)
    (p : PTPEventManager) (ptpProfileName : String) (s : Stats R)
    (eventResourceName : String) (ptpOffset : Int) (clockState : SyncState)
    (eventType : EventType) (pub : EventPublisherType)
    (h0 : clockState ≠ "") (h1 : clockState ≠ LOCKED) (h2 : clockState ≠ FREERUN)
    (hp : publisherOf p PtpStateChange = some pub) :
    ∃ state,
      state = (if (PtpThreshold p ptpProfileName).MinOffsetThreshold ≤ ptpOffset ∧
          ptpOffset ≤ (PtpThreshold p ptpProfileName).MaxOffsetThreshold
        then clockState else FREERUN) ∧
      (GenPTPEvent addValue p ptpProfileName (some s) eventResourceName ptpOffset clockState
          eventType).stats
        = some { s with lastSyncState := state, lastOffset := ptpOffset } ∧
      (GenPTPEvent addValue p ptpProfileName (some s) eventResourceName ptpOffset clockState
          eventType).recovered = none ∧
      (p.delivers →
        ∃ e, (GenPTPEvent addValue p ptpProfileName (some s) eventResourceName ptpOffset
            clockState eventType).events = [e] ∧
          e.eventType = PtpStateChange ∧ e.carriesOffset ptpOffset ∧ e.carriesState state) := by
  have h1' : ¬ clockState = "LOCKED" := h1
  have h2' : ¬ clockState = "FREERUN" := h2
  have hne : PtpStateChange ≠ PtpClockClassChange := by decide
  by_cases hr : (PtpThreshold p ptpProfileName).MinOffsetThreshold ≤ ptpOffset ∧
      ptpOffset ≤ (PtpThreshold p ptpProfileName).MaxOffsetThreshold
  · have hin : isOffsetInRange ptpOffset (PtpThreshold p ptpProfileName).MaxOffsetThreshold
        (PtpThreshold p ptpProfileName).MinOffsetThreshold = true := by
      simpa [isOffsetInRange] using hr
    have hgen : GenPTPEvent addValue p ptpProfileName (some s) eventResourceName ptpOffset
        clockState eventType
        = publishThen (PublishEvent p clockState ptpOffset eventResourceName PtpStateChange) s
            (fun s => (s.SetLastSyncState clockState).SetLastOffset ptpOffset) := by
      simp [GenPTPEvent, h0, h1', h2', hin, LOCKED, FREERUN]
    obtain ⟨a, b, c⟩ := publishThen_registered p clockState ptpOffset eventResourceName
      PtpStateChange pub s (fun s => (s.SetLastSyncState clockState).SetLastOffset ptpOffset)
      h0 hp
    rw [hgen]
    refine ⟨clockState, by simp [hr], a, b, ?_⟩
    intro hd
    obtain ⟨e, he1, he2, he3, he4⟩ := c hd
    exact ⟨e, he1, he2, he3, he4 hne⟩
  · have hout : isOffsetInRange ptpOffset (PtpThreshold p ptpProfileName).MaxOffsetThreshold
        (PtpThreshold p ptpProfileName).MinOffsetThreshold = false := by
      simpa [isOffsetInRange] using hr
    have hgen : GenPTPEvent addValue p ptpProfileName (some s) eventResourceName ptpOffset
        clockState eventType
        = publishThen (PublishEvent p FREERUN ptpOffset eventResourceName PtpStateChange) s
            (fun s => (s.SetLastSyncState FREERUN).SetLastOffset ptpOffset) := by
      simp [GenPTPEvent, h0, h1', h2', hout, LOCKED, FREERUN]
    obtain ⟨a, b, c⟩ := publishThen_registered p FREERUN ptpOffset eventResourceName
      PtpStateChange pub s (fun s => (s.SetLastSyncState FREERUN).SetLastOffset ptpOffset)
      (by decide) hp
    rw [hgen]
    refine ⟨FREERUN, by simp [hr], a, b, ?_⟩
    intro hd
    obtain ⟨e, he1, he2, he3, he4⟩ := c hd
    exact ⟨e, he1, he2, he3, he4 hne⟩

/-- C8, witness: a sample with clock state UNKNOWN at offset 0 under the OS clock
event type. -/
theorem unknown_state_publishes_state_change_witness :
    ("UNKNOWN" : SyncState) ≠ "" ∧ ("UNKNOWN" : SyncState) ≠ LOCKED ∧
    ("UNKNOWN" : SyncState) ≠ FREERUN ∧
    publisherOf demoManager PtpStateChange = some demoPublisher ∧
    demoManager.delivers ∧
    ∃ state,
      state = (if (PtpThreshold demoManager "p").MinOffsetThreshold ≤ 0 ∧
          0 ≤ (PtpThreshold demoManager "p").MaxOffsetThreshold
        then "UNKNOWN" else FREERUN) ∧
      (GenPTPEvent countValue demoManager "p" (some (demoStats LOCKED)) "eth0" 0 "UNKNOWN"
          "event.sync.sync-status.os-clock-sync-state-change").stats
        = some { demoStats LOCKED with lastSyncState := state, lastOffset := 0 } ∧
      ∃ e, (GenPTPEvent countValue demoManager "p" (some (demoStats LOCKED)) "eth0" 0
          "UNKNOWN" "event.sync.sync-status.os-clock-sync-state-change").events = [e] ∧
        e.eventType = PtpStateChange ∧ e.carriesOffset 0 ∧ e.carriesState state :=
  ⟨by decide, by decide, by decide, by decide, ⟨rfl, fun _ _ _ _ => rfl, fun _ => rfl⟩,
    (unknown_state_publishes_state_change countValue demoManager "p" (demoStats LOCKED) "eth0" 0
      "UNKNOWN" "event.sync.sync-status.os-clock-sync-state-change" demoPublisher
      (by decide) (by decide) (by decide) (by decide)).imp
      fun _ h => ⟨h.1, h.2.1, h.2.2.2 ⟨rfl, fun _ _ _ _ => rfl, fun _ => rfl⟩⟩⟩

/-- C9, counterexample: a LOCKED sample at offset 42 on a record whose last state
is not yet set. With an empty publisher table the call panics, publishes nothing
and leaves the record as it was; in mock mode, when
`common.PublishEventViaAPI` returns an error and when `common.CreateEvent`
returns an error it publishes nothing although it records LOCKED; under the
clock-class type it publishes one event, which does not carry LOCKED. -/
theorem first_locked_not_announced :
    ¬ knownState (demoStats "").lastSyncState ∧
    GenPTPEvent countValue bareManager "p" (some (demoStats "")) "eth0" 42 LOCKED
        PtpStateChange
      = { stats := some (demoStats ""), events := [],
          recovered := some Panic.nilDereference } ∧
    GenPTPEvent countValue mockManager "p" (some (demoStats "")) "eth0" 42 LOCKED
        PtpStateChange
      = { stats := some { lastSyncState := LOCKED, lastOffset := 42, rest := 0 },
          events := [], recovered := none } ∧
    GenPTPEvent countValue offlineManager "p" (some (demoStats "")) "eth0" 42 LOCKED
        PtpStateChange
      = { stats := some { lastSyncState := LOCKED, lastOffset := 42, rest := 0 },
          events := [], recovered := none } ∧
    GenPTPEvent countValue rejectingManager "p" (some (demoStats "")) "eth0" 42 LOCKED
        PtpStateChange
      = { stats := some { lastSyncState := LOCKED, lastOffset := 42, rest := 0 },
          events := [], recovered := none } ∧
    (GenPTPEvent countValue clockClassManager "p" (some (demoStats "")) "eth0" 42 LOCKED
        PtpClockClassChange).events.length = 1 ∧
    (∀ e ∈ (GenPTPEvent countValue clockClassManager "p" (some (demoStats "")) "eth0" 42
        LOCKED PtpClockClassChange).events, ¬ e.carriesState LOCKED) := by
  decide

/-- C9, amended: on a record whose last state is none of FREERUN, LOCKED,
HOLDOVER, a LOCKED sample for whose event type a publisher is registered
records without panic LOCKED when the offset is in [min, max] and FREERUN when
it is not, together with the offset; when moreover the manager is not in mock
mode and the event is created and sent without error, exactly one event is
published, which has the event type of the caller and carries the offset and,
unless that type is `PtpClockClassChange`, the recorded state. -/
theorem locked_after_unknown {R : Type} (addValue : R → Int → R)
    (p : PTPEventManager) (ptpProfileName : String) (s : Stats R)
    (eventResourceName : String) (ptpOffset : Int) (eventType : EventType)
    (pub : EventPublisherType)
    (hs : ¬ knownState s.lastSyncState)
    (hp : publisherOf p eventType = some pub) :
    ∃ state,
      state = (if (PtpThreshold p ptpProfileName).MinOffsetThreshold ≤ ptpOffset ∧
          ptpOffset ≤ (PtpThreshold p ptpProfileName).MaxOffsetThreshold
        then LOCKED else FREERUN) ∧
      (GenPTPEvent addValue p ptpProfileName (some s) eventResourceName ptpOffset LOCKED
          eventType).stats
        = some { s with lastSyncState := state, lastOffset := ptpOffset } ∧
      (GenPTPEvent addValue p ptpProfileName (some s) eventResourceName ptpOffset LOCKED
          eventType).recovered = none ∧
      (p.delivers →
        ∃ e, (GenPTPEvent addValue p ptpProfileName (some s) eventResourceName ptpOffset
            LOCKED eventType).events = [e] ∧
          e.eventType = eventType ∧ e.carriesOffset ptpOffset ∧
          (eventType ≠ PtpClockClassChange → e.carriesState state)) := by
  simp only [knownState, not_or] at hs
  obtain ⟨hf, hl, hh⟩ := hs
  have hf' : ¬ s.lastSyncState = "FREERUN" := hf
  have hl' : ¬ s.lastSyncState = "LOCKED" := hl
  have hh' : ¬ s.lastSyncState = "HOLDOVER" := hh
  by_cases hr : (PtpThreshold p ptpProfileName).MinOffsetThreshold ≤ ptpOffset ∧
      ptpOffset ≤ (PtpThreshold p ptpProfileName).MaxOffsetThreshold
  · have hin : isOffsetInRange ptpOffset (PtpThreshold p ptpProfileName).MaxOffsetThreshold
        (PtpThreshold p ptpProfileName).MinOffsetThreshold = true := by
      simpa [isOffsetInRange] using hr
    have hgen : GenPTPEvent addValue p ptpProfileName (some s) eventResourceName ptpOffset
        LOCKED eventType
        = publishThen (PublishEvent p LOCKED ptpOffset eventResourceName eventType) s
            (fun s => (s.SetLastSyncState LOCKED).SetLastOffset ptpOffset) := by
      simp [GenPTPEvent, hf', hl', hh', hin, LOCKED, FREERUN, HOLDOVER]
    rw [hgen]
    exact ⟨LOCKED, by simp [hr],
      publishThen_registered p LOCKED ptpOffset eventResourceName eventType pub s _
        (by decide) hp⟩
  · have hout : isOffsetInRange ptpOffset (PtpThreshold p ptpProfileName).MaxOffsetThreshold
        (PtpThreshold p ptpProfileName).MinOffsetThreshold = false := by
      simpa [isOffsetInRange] using hr
    have hgen : GenPTPEvent addValue p ptpProfileName (some s) eventResourceName ptpOffset
        LOCKED eventType
        = publishThen (PublishEvent p FREERUN ptpOffset eventResourceName eventType) s
            (fun s => (s.SetLastSyncState FREERUN).SetLastOffset ptpOffset) := by
      simp [GenPTPEvent, hf', hl', hh', hout, LOCKED, FREERUN, HOLDOVER]
    rw [hgen]
    exact ⟨FREERUN, by simp [hr],
      publishThen_registered p FREERUN ptpOffset eventResourceName eventType pub s _
        (by decide) hp⟩

/-- C9, witness: a first LOCKED sample at offset 500, out of the default range, is
announced as FREERUN. -/
theorem locked_after_unknown_witness :
    ¬ knownState (demoStats "").lastSyncState ∧
    publisherOf demoManager PtpStateChange = some demoPublisher ∧
    demoManager.delivers ∧
    PtpStateChange ≠ PtpClockClassChange ∧
    ∃ state,
      state = (if (PtpThreshold demoManager "p").MinOffsetThreshold ≤ 500 ∧
          500 ≤ (PtpThreshold demoManager "p").MaxOffsetThreshold
        then LOCKED else FREERUN) ∧
      (GenPTPEvent countValue demoManager "p" (some (demoStats "")) "eth0" 500 LOCKED
          PtpStateChange).stats
        = some { demoStats "" with lastSyncState := state, lastOffset := 500 } ∧
      ∃ e, (GenPTPEvent countValue demoManager "p" (some (demoStats "")) "eth0" 500 LOCKED
          PtpStateChange).events = [e] ∧
        e.eventType = PtpStateChange ∧ e.carriesOffset 500 ∧ e.carriesState state :=
  ⟨by decide, by decide, ⟨rfl, fun _ _ _ _ => rfl, fun _ => rfl⟩, by decide,
    (locked_after_unknown countValue demoManager "p" (demoStats "") "eth0" 500 PtpStateChange
      demoPublisher (by decide) (by decide)).imp
      fun _ h =>
        ⟨h.1, h.2.1,
          (h.2.2.2 ⟨rfl, fun _ _ _ _ => rfl, fun _ => rfl⟩).imp
            fun _ he => ⟨he.1, he.2.1, he.2.2.1, he.2.2.2 (by decide)⟩⟩⟩

/-! ## Claims about the registries and the payload -/

/-- C11: `PtpThreshold` returns the four fields of the entry stored under the
profile name when the name is a key, whatever other entries exist; otherwise,
when the map is not empty, the fields of an entry of the map (of the only entry
when there is exactly one); otherwise the default with hold-over 5 s and the
range -100/100. -/
theorem PtpThreshold_fallback (p : PTPEventManager) (profileName : String) :
    (∀ t, mapGet p.PtpConfigMapUpdates.EventThreshold profileName = some t →
      PtpThreshold p profileName = t) ∧
    (mapGet p.PtpConfigMapUpdates.EventThreshold profileName = none →
      p.PtpConfigMapUpdates.EventThreshold ≠ [] →
      ∃ kv ∈ p.PtpConfigMapUpdates.EventThreshold, PtpThreshold p profileName = kv.2) ∧
    (mapGet p.PtpConfigMapUpdates.EventThreshold profileName = none →
      ∀ k t, p.PtpConfigMapUpdates.EventThreshold = [(k, t)] → PtpThreshold p profileName = t) ∧
    (p.PtpConfigMapUpdates.EventThreshold = [] →
      PtpThreshold p profileName = GetDefaultThreshold ∧
      (PtpThreshold p profileName).HoldOverTimeout = 5 ∧
      (PtpThreshold p profileName).MaxOffsetThreshold = 100 ∧
      (PtpThreshold p profileName).MinOffsetThreshold = -100) := by
  refine ⟨?_, ?_, ?_, ?_⟩
  · intro t ht
    simp [PtpThreshold, ht]
  · intro hn hne
    cases hm : p.PtpConfigMapUpdates.EventThreshold with
    | nil => exact absurd hm hne
    | cons kv rest =>
      refine ⟨kv, List.mem_cons_self _ _, ?_⟩
      rw [hm] at hn
      simp [PtpThreshold, hn, hm]
  · intro hn k t hm
    rw [hm] at hn
    simp [PtpThreshold, hn, hm]
  · intro hm
    simp [PtpThreshold, hm, mapGet, GetDefaultThreshold]

/-- C11, witness: with entries for P and Q, the name Q gets the entry of Q, the
unknown name Z gets an entry of the map, a map with the single entry P serves Z
with it, and the empty map gives the default. -/
theorem PtpThreshold_fallback_witness :
    PtpThreshold thresholdManager "Q" = narrowThreshold ∧
    (∃ kv ∈ thresholdManager.PtpConfigMapUpdates.EventThreshold,
      PtpThreshold thresholdManager "Z" = kv.2) ∧
    PtpThreshold (swapThreshold demoManager "P" wideThreshold) "Z" = wideThreshold ∧
    (PtpThreshold demoManager "Z" = GetDefaultThreshold ∧
      (PtpThreshold demoManager "Z").HoldOverTimeout = 5 ∧
      (PtpThreshold demoManager "Z").MaxOffsetThreshold = 100 ∧
      (PtpThreshold demoManager "Z").MinOffsetThreshold = -100) :=
  ⟨(PtpThreshold_fallback thresholdManager "Q").1 narrowThreshold (by decide),
   (PtpThreshold_fallback thresholdManager "Z").2.1 (by decide) (by decide),
   (PtpThreshold_fallback (swapThreshold demoManager "P" wideThreshold) "Z").2.2.1 (by decide)
     "P" wideThreshold (by decide),
   (PtpThreshold_fallback demoManager "Z").2.2.2 (by decide)⟩

/-- C12: `GenPTPEvent` always returns an outcome, and whenever its deferred
`recover` caught a panic (no publisher for the type being published, a nil
record) the sample is discarded: no event is published and the record is the
one the call was given, so last state and last offset are unchanged. -/
theorem fault_discards_sample {R : Type} (addValue : R → Int → R) (p : PTPEventManager)
    (ptpProfileName : String) (oStats : Option (Stats R)) (eventResourceName : String)
    (ptpOffset : Int) (clockState : SyncState) (eventType : EventType) (e : Panic)
    (h : (GenPTPEvent addValue p ptpProfileName oStats eventResourceName ptpOffset clockState
        eventType).recovered = some e) :
    (GenPTPEvent addValue p ptpProfileName oStats eventResourceName ptpOffset clockState
        eventType).events = [] ∧
    (GenPTPEvent addValue p ptpProfileName oStats eventResourceName ptpOffset clockState
        eventType).stats = oStats := by
  cases oStats with
  | none =>
    by_cases hc : clockState = ""
    · simp [GenPTPEvent, hc]
    · simp [GenPTPEvent, hc]
  | some s =>
    simp only [GenPTPEvent] at h ⊢
    split_ifs at h ⊢
    all_goals first
      | exact absurd h (by simp)
      | (revert h
         cases PublishEvent p _ ptpOffset eventResourceName _ <;> simp [publishThen])

/-- C12, witness: a sample for which no publisher is registered, and a sample
for a nil record. -/
theorem fault_discards_sample_witness :
    ((GenPTPEvent countValue bareManager "p" (some (demoStats LOCKED)) "eth0" 500 LOCKED
        PtpStateChange).recovered = some Panic.nilDereference ∧
      (GenPTPEvent countValue bareManager "p" (some (demoStats LOCKED)) "eth0" 500 LOCKED
          PtpStateChange).events = [] ∧
      (GenPTPEvent countValue bareManager "p" (some (demoStats LOCKED)) "eth0" 500 LOCKED
          PtpStateChange).stats = some (demoStats LOCKED)) ∧
    ((GenPTPEvent countValue demoManager "p" none "eth0" 0 LOCKED
        PtpStateChange).recovered = some Panic.nilDereference ∧
      (GenPTPEvent countValue demoManager "p" none "eth0" 0 LOCKED PtpStateChange).events = [] ∧
      (GenPTPEvent countValue demoManager "p" none "eth0" 0 LOCKED PtpStateChange).stats = none) :=
  ⟨⟨by decide,
    fault_discards_sample countValue bareManager "p" (some (demoStats LOCKED)) "eth0" 500 LOCKED
      PtpStateChange Panic.nilDereference (by decide)⟩,
   ⟨by decide,
    fault_discards_sample countValue demoManager "p" none "eth0" 0 LOCKED
      PtpStateChange Panic.nilDereference (by decide)⟩⟩

/-- C13, the code at the failing input: with an empty publisher table,
`PublishEvent` for the state LOCKED panics on the nil publisher instead of
returning after a log line; `publish`, called on its own, would only log. -/
theorem PublishEvent_missing_publisher_panics :
    mapGet bareManager.publisherTypes PtpStateChange = none ∧
    PublishEvent bareManager LOCKED 0 "eth0" PtpStateChange
      = Except.error Panic.nilDereference ∧
    publish bareManager { Version := "v1", Values := [] } "/cluster/node1/ptp/x" PtpStateChange
      = Except.ok [] :=
  ⟨by decide, rfl, rfl⟩

/-- C14: for a non-empty state `GetPTPEventsData` returns a payload of version v1
whose values are, in this order, a NOTIFICATION/ENUMERATION entry with the state
and a METRIC/DECIMAL entry with the offset when the event type is not
`PtpClockClassChange`, and the METRIC/DECIMAL entry alone when it is; all entries
have the same resource; for the empty state it returns nil. -/
theorem GetPTPEventsData_payload (p : PTPEventManager) (state : SyncState) (ptpOffset : Int)
    (source : String) (eventType : EventType) :
    (state = "" → GetPTPEventsData p state ptpOffset source eventType = none) ∧
    (state ≠ "" →
      ∃ resource,
        (eventType ≠ PtpClockClassChange →
          GetPTPEventsData p state ptpOffset source eventType
            = some
                { Version := "v1"
                  Values :=
                    [{ Resource := resource, DataType := DataType.NOTIFICATION,
                       ValueType := ValueType.ENUMERATION, Value := Value.state state },
                     { Resource := resource, DataType := DataType.METRIC,
                       ValueType := ValueType.DECIMAL, Value := Value.number ptpOffset }] }) ∧
        (eventType = PtpClockClassChange →
          GetPTPEventsData p state ptpOffset source eventType
            = some
                { Version := "v1"
                  Values :=
                    [{ Resource := resource, DataType := DataType.METRIC,
                       ValueType := ValueType.DECIMAL, Value := Value.number ptpOffset }] })) := by
  constructor
  · intro hs
    simp [GetPTPEventsData, hs]
  · intro hs
    refine ⟨p.env.Sprintf p.resourcePrefix [p.nodeName, p.env.Sprintf "/%s" [source]], ?_, ?_⟩
    · intro hc
      simp [GetPTPEventsData, hs, hc]
    · intro hc
      simp [GetPTPEventsData, hs, hc]

/-- C14, witness: the payloads for LOCKED at offset 42 under the state-change type
and under the clock-class type, and the nil payload of the empty state. -/
theorem GetPTPEventsData_payload_witness :
    GetPTPEventsData demoManager "" 42 "eth0" PtpStateChange = none ∧
    (∃ resource,
      (PtpStateChange ≠ PtpClockClassChange →
        GetPTPEventsData demoManager LOCKED 42 "eth0" PtpStateChange
          = some
              { Version := "v1"
                Values :=
                  [{ Resource := resource, DataType := DataType.NOTIFICATION,
                     ValueType := ValueType.ENUMERATION, Value := Value.state LOCKED },
                   { Resource := resource, DataType := DataType.METRIC,
                     ValueType := ValueType.DECIMAL, Value := Value.number 42 }] }) ∧
      (PtpStateChange = PtpClockClassChange →
        GetPTPEventsData demoManager LOCKED 42 "eth0" PtpStateChange
          = some
              { Version := "v1"
                Values :=
                  [{ Resource := resource, DataType := DataType.METRIC,
                     ValueType := ValueType.DECIMAL, Value := Value.number 42 }] })) ∧
    GetPTPEventsData demoManager LOCKED 42 "eth0" PtpClockClassChange
      = some
          { Version := "v1"
            Values :=
              [{ Resource := "/cluster/node1/ptp/eth0", DataType := DataType.METRIC,
                 ValueType := ValueType.DECIMAL, Value := Value.number 42 }] } :=
  ⟨(GetPTPEventsData_payload demoManager "" 42 "eth0" PtpStateChange).1 (by decide),
   (GetPTPEventsData_payload demoManager LOCKED 42 "eth0" PtpStateChange).2 (by decide),
   by decide⟩

/-- C16, the code at the failing inputs: a manager holds for the config
`ptp4l.0.config` a record of `eth0` that is LOCKED at offset 42. Asked for
`eth0`, `GetStatsForInterface` replaces that record with a new one (the stored
record is gone as well); asked for `eth1`, it returns the map as it is, with no
record for `eth1`. -/
theorem GetStatsForInterface_resets_existing :
    mapGet (GetStatsForInterface freshStats demoState "ptp4l.0.config" "eth0").2 "eth0"
      = some (freshStats "ptp4l.0.config") ∧
    mapGet demoState.Stats "ptp4l.0.config"
      = some [("eth0", { lastSyncState := LOCKED, lastOffset := 42, rest := 3 })] ∧
    mapGet (GetStatsForInterface freshStats demoState "ptp4l.0.config" "eth0").1.Stats
        "ptp4l.0.config"
      = some [("eth0", freshStats "ptp4l.0.config")] ∧
    mapGet (GetStatsForInterface freshStats demoState "ptp4l.0.config" "eth1").2 "eth1"
      = none := by
  decide

/-- C18: `DeleteStatsConfig` removes the records of its config name and changes
nothing else: the records of every other config name, the config registry and
the other fields stay as they were; `DeletePTPConfig` removes the config of its
name and changes nothing else: every other config, the records and the other
fields stay as they were; and `GetStats` for a config name just removed by
`DeleteStatsConfig` returns an empty map. -/
theorem delete_config_frame {R : Type} (m : ManagerState R) (key : ConfigName) :
    (mapGet (DeleteStatsConfig m key).Stats key = none ∧
      (∀ other, other ≠ key →
        mapGet (DeleteStatsConfig m key).Stats other = mapGet m.Stats other) ∧
      (DeleteStatsConfig m key).Ptp4lConfigInterfaces = m.Ptp4lConfigInterfaces ∧
      (DeleteStatsConfig m key).toPTPEventManager = m.toPTPEventManager) ∧
    (mapGet (DeletePTPConfig m key).Ptp4lConfigInterfaces key = none ∧
      (∀ other, other ≠ key →
        mapGet (DeletePTPConfig m key).Ptp4lConfigInterfaces other
          = mapGet m.Ptp4lConfigInterfaces other) ∧
      (DeletePTPConfig m key).Stats = m.Stats ∧
      (DeletePTPConfig m key).toPTPEventManager = m.toPTPEventManager) ∧
    (GetStats (DeleteStatsConfig m key) key).2 = [] := by
  refine ⟨⟨?_, ?_, rfl, rfl⟩, ⟨?_, ?_, rfl, rfl⟩, ?_⟩
  · exact mapGet_mapDelete_self m.Stats key
  · intro other h
    exact mapGet_mapDelete_other m.Stats key other h
  · exact mapGet_mapDelete_self m.Ptp4lConfigInterfaces key
  · intro other h
    exact mapGet_mapDelete_other m.Ptp4lConfigInterfaces key other h
  · have h : mapGet (DeleteStatsConfig m key).Stats key = none :=
      mapGet_mapDelete_self m.Stats key
    simp [GetStats, h]

/-- C18, witness: deleting `ptp4l.0.config` from a manager that also holds
`ptp4l.1.config`. -/
theorem delete_config_frame_witness :
    ("ptp4l.1.config" : ConfigName) ≠ "ptp4l.0.config" ∧
    mapGet (DeleteStatsConfig twoConfigState "ptp4l.0.config").Stats "ptp4l.1.config"
      = mapGet twoConfigState.Stats "ptp4l.1.config" ∧
    mapGet (DeletePTPConfig twoConfigState "ptp4l.0.config").Ptp4lConfigInterfaces
        "ptp4l.1.config"
      = mapGet twoConfigState.Ptp4lConfigInterfaces "ptp4l.1.config" ∧
    mapGet (DeleteStatsConfig twoConfigState "ptp4l.0.config").Stats "ptp4l.0.config" = none ∧
    (GetStats (DeleteStatsConfig twoConfigState "ptp4l.0.config") "ptp4l.0.config").2 = [] :=
  ⟨by decide,
   (delete_config_frame twoConfigState "ptp4l.0.config").1.2.1 "ptp4l.1.config" (by decide),
   (delete_config_frame twoConfigState "ptp4l.0.config").2.1.2.1 "ptp4l.1.config" (by decide),
   (delete_config_frame twoConfigState "ptp4l.0.config").1.1,
   (delete_config_frame twoConfigState "ptp4l.0.config").2.2⟩

/-- C19: `GetPTPConfig` returns the config stored under the name when there is a
non-nil one, and leaves the manager as it is; in particular it returns what
`AddPTPConfig` stored last. Otherwise it returns a new config with that name
and no interface, which it stores with `AddPTPConfig`. A second `GetPTPConfig`
returns the same config and leaves the manager as the first left it. -/
theorem GetPTPConfig_get_or_create {R : Type} (m : ManagerState R) (configName : ConfigName) :
    (∀ c, mapGet m.Ptp4lConfigInterfaces configName = some (some c) →
      GetPTPConfig m configName = (m, c)) ∧
    (∀ c, GetPTPConfig (AddPTPConfig m configName (some c)) configName
      = (AddPTPConfig m configName (some c), c)) ∧
    ((∀ c, mapGet m.Ptp4lConfigInterfaces configName ≠ some (some c)) →
      GetPTPConfig m configName
        = (AddPTPConfig m configName (some { Name := configName, Interfaces := [] }),
           { Name := configName, Interfaces := [] })) ∧
    GetPTPConfig (GetPTPConfig m configName).1 configName = GetPTPConfig m configName := by
  have hget : ∀ (m' : ManagerState R) c,
      mapGet m'.Ptp4lConfigInterfaces configName = some (some c) →
      GetPTPConfig m' configName = (m', c) := by
    intro m' c h
    simp [GetPTPConfig, h]
  have hadd : ∀ c, mapGet (AddPTPConfig m configName (some c)).Ptp4lConfigInterfaces configName
      = some (some c) := by
    intro c
    exact mapGet_mapSet_self m.Ptp4lConfigInterfaces configName (some c)
  have hnew : (∀ c, mapGet m.Ptp4lConfigInterfaces configName ≠ some (some c)) →
      GetPTPConfig m configName
        = (AddPTPConfig m configName (some { Name := configName, Interfaces := [] }),
           { Name := configName, Interfaces := [] }) := by
    intro h
    unfold GetPTPConfig
    split
    · next c hc => exact absurd hc (h c)
    · rfl
  refine ⟨hget m, fun c => hget _ c (hadd c), hnew, ?_⟩
  by_cases h : ∃ c, mapGet m.Ptp4lConfigInterfaces configName = some (some c)
  · obtain ⟨c, hc⟩ := h
    rw [hget m c hc]
    exact hget m c hc
  · have h' : ∀ c, mapGet m.Ptp4lConfigInterfaces configName ≠ some (some c) :=
      fun c hc => h ⟨c, hc⟩
    rw [hnew h']
    exact hget _ _ (hadd _)

/-- C19, witness: the config stored for `ptp4l.0.config` is returned as it is, and
the unknown name `ptp4l.9.config` gets a new empty config. -/
theorem GetPTPConfig_get_or_create_witness :
    mapGet demoState.Ptp4lConfigInterfaces "ptp4l.0.config"
      = some (some { Name := "ptp4l.0.config",
                     Interfaces := [{ Name := "eth0", Role := PtpPortRole.slave }] }) ∧
    GetPTPConfig demoState "ptp4l.0.config"
      = (demoState,
         { Name := "ptp4l.0.config", Interfaces := [{ Name := "eth0", Role := PtpPortRole.slave }] }) ∧
    mapGet demoState.Ptp4lConfigInterfaces "ptp4l.9.config" = none ∧
    GetPTPConfig demoState "ptp4l.9.config"
      = (AddPTPConfig demoState "ptp4l.9.config"
           (some { Name := "ptp4l.9.config", Interfaces := [] }),
         { Name := "ptp4l.9.config", Interfaces := [] }) :=
  ⟨by decide,
   (GetPTPConfig_get_or_create demoState "ptp4l.0.config").1 _ (by decide),
   by decide,
   (GetPTPConfig_get_or_create demoState "ptp4l.9.config").2.2.1
     (by
       intro c
       rw [show mapGet demoState.Ptp4lConfigInterfaces "ptp4l.9.config" = none by decide]
       simp)⟩

/-- C15, counterexample: called with the state-change type, for which a publisher
is registered, `PublishClockClassEvent` publishes a payload with two values, the
NOTIFICATION entry LOCKED before the METRIC entry with the class 6; called with
the clock-class type for the class 2^63, which is outside the range of `int64`,
it publishes a payload whose number is not the class. -/
theorem clock_class_payload_differs :
    PublishClockClassEvent clockClassManager 6 "eth0" PtpStateChange
      = Except.ok
          [{ pubID := "pub-1"
             eventType := PtpStateChange
             source := "/cluster/node1/ptp/sync-status/ptp-state"
             data :=
               { Version := "v1"
                 Values :=
                   [{ Resource := "/cluster/node1/ptp/eth0", DataType := DataType.NOTIFICATION,
                      ValueType := ValueType.ENUMERATION, Value := Value.state LOCKED },
                    { Resource := "/cluster/node1/ptp/eth0", DataType := DataType.METRIC,
                      ValueType := ValueType.DECIMAL, Value := Value.number 6 }] } }] ∧
    PublishClockClassEvent clockClassManager (2 ^ 63) "eth0" PtpClockClassChange
      = Except.ok
          [{ pubID := "pub-3"
             eventType := PtpClockClassChange
             source := "/cluster/node1/ptp/ptp-status/clock-class"
             data :=
               { Version := "v1"
                 Values :=
                   [{ Resource := "/cluster/node1/ptp/eth0", DataType := DataType.METRIC,
                      ValueType := ValueType.DECIMAL, Value := Value.number (-2 ^ 63) }] } }] ∧
    (-2 ^ 63 : Int) ≠ 2 ^ 63 :=
  ⟨rfl, rfl, by decide⟩

/-- C15, amended: for every integer clock class in the range of `int64` and every
source, the payload of every event `PublishClockClassEvent` publishes is the
one `GetPTPEventsData` builds for the class with the state fixed to LOCKED,
whatever the event type; under the event type `PtpClockClassChange` that
payload has exactly one value, a METRIC/DECIMAL entry with the class; and when
a publisher is registered for that type, the manager is not in mock mode and
the event is created and sent without error, exactly one event is published. -/
theorem clock_class_payload (p : PTPEventManager) (clockClass : Int) (source : String)
    (hrange : -2 ^ 63 ≤ clockClass ∧ clockClass < 2 ^ 63) :
    (∀ eventType evs e,
      PublishClockClassEvent p clockClass source eventType = Except.ok evs → e ∈ evs →
      some e.data = GetPTPEventsData p LOCKED clockClass source eventType) ∧
    (∀ evs e,
      PublishClockClassEvent p clockClass source PtpClockClassChange = Except.ok evs → e ∈ evs →
      e.eventType = PtpClockClassChange ∧
      ∃ resource,
        e.data.Values =
          [{ Resource := resource, DataType := DataType.METRIC,
             ValueType := ValueType.DECIMAL, Value := Value.number clockClass }]) ∧
    (∀ pub, publisherOf p PtpClockClassChange = some pub → p.delivers →
      ∃ e, PublishClockClassEvent p clockClass source PtpClockClassChange = Except.ok [e]) := by
  have hconv := int64OfFloat64_of_range hrange
  refine ⟨?_, ?_, ?_⟩
  · intro eventType evs e h he
    have := (PublishClockClassEvent_mem h he).2.2
    rwa [hconv] at this
  · intro evs e h he
    obtain ⟨_, hty, hdata⟩ := PublishClockClassEvent_mem h he
    rw [hconv] at hdata
    refine ⟨hty, ?_⟩
    simp [GetPTPEventsData, LOCKED] at hdata
    exact ⟨_, by rw [hdata]⟩
  · intro pub hp hd
    have hdata : ∃ d, GetPTPEventsData p LOCKED (int64OfFloat64 clockClass) source
        PtpClockClassChange = some d := by
      simp [GetPTPEventsData, LOCKED]
    obtain ⟨d, hdata⟩ := hdata
    obtain ⟨e, he⟩ := publish_delivered d
      (p.env.Sprintf p.resourcePrefix [p.nodeName, pub.Resource]) hp hd
    exact ⟨e, by simp [PublishClockClassEvent, hp, hdata, he]⟩

/-- C15, witness: the class 6 under the clock-class type. -/
theorem clock_class_payload_witness :
    ((-2 ^ 63 : Int) ≤ 6 ∧ (6 : Int) < 2 ^ 63) ∧
    publisherOf clockClassManager PtpClockClassChange = some clockClassPublisher ∧
    clockClassManager.delivers ∧
    (∃ e, PublishClockClassEvent clockClassManager 6 "eth0" PtpClockClassChange
        = Except.ok [e]) ∧
    ∀ evs e,
      PublishClockClassEvent clockClassManager 6 "eth0" PtpClockClassChange = Except.ok evs →
      e ∈ evs →
      e.eventType = PtpClockClassChange ∧
      ∃ resource,
        e.data.Values =
          [{ Resource := resource, DataType := DataType.METRIC,
             ValueType := ValueType.DECIMAL, Value := Value.number 6 }] :=
  ⟨by decide, by decide, ⟨rfl, fun _ _ _ _ => rfl, fun _ => rfl⟩,
   (clock_class_payload clockClassManager 6 "eth0" (by decide)).2.2 clockClassPublisher
     (by decide) ⟨rfl, fun _ _ _ _ => rfl, fun _ => rfl⟩,
   (clock_class_payload clockClassManager 6 "eth0" (by decide)).2.1⟩

/-- C17, counterexample: after the threshold of the profile P is replaced
(-100/100 by -10/10), a LOCKED sample at offset 50 for a LOCKED record is out of
range. With an empty publisher table the call panics, publishes nothing and
leaves the record LOCKED; in mock mode, when `common.PublishEventViaAPI`
returns an error and when `common.CreateEvent` returns an error it publishes
nothing although it records FREERUN; under the clock-class type it publishes
one event, which does not carry FREERUN. -/
theorem hot_swap_not_announced :
    PtpThreshold (swapThreshold (swapThreshold bareManager "P" wideThreshold) "P" narrowThreshold)
        "P" = narrowThreshold ∧
    GenPTPEvent countValue
        (swapThreshold (swapThreshold bareManager "P" wideThreshold) "P" narrowThreshold) "P"
        (some (demoStats LOCKED)) "eth0" 50 LOCKED PtpStateChange
      = { stats := some (demoStats LOCKED), events := [],
          recovered := some Panic.nilDereference } ∧
    GenPTPEvent countValue
        (swapThreshold (swapThreshold mockManager "P" wideThreshold) "P" narrowThreshold) "P"
        (some (demoStats LOCKED)) "eth0" 50 LOCKED PtpStateChange
      = { stats := some { lastSyncState := FREERUN, lastOffset := 50, rest := 0 },
          events := [], recovered := none } ∧
    GenPTPEvent countValue
        (swapThreshold (swapThreshold offlineManager "P" wideThreshold) "P" narrowThreshold) "P"
        (some (demoStats LOCKED)) "eth0" 50 LOCKED PtpStateChange
      = { stats := some { lastSyncState := FREERUN, lastOffset := 50, rest := 0 },
          events := [], recovered := none } ∧
    GenPTPEvent countValue
        (swapThreshold (swapThreshold rejectingManager "P" wideThreshold) "P" narrowThreshold)
        "P" (some (demoStats LOCKED)) "eth0" 50 LOCKED PtpStateChange
      = { stats := some { lastSyncState := FREERUN, lastOffset := 50, rest := 0 },
          events := [], recovered := none } ∧
    (GenPTPEvent countValue
        (swapThreshold (swapThreshold clockClassManager "P" wideThreshold) "P" narrowThreshold)
        "P" (some (demoStats LOCKED)) "eth0" 50 LOCKED PtpClockClassChange).events.length = 1 ∧
    (∀ e ∈ (GenPTPEvent countValue
        (swapThreshold (swapThreshold clockClassManager "P" wideThreshold) "P" narrowThreshold)
        "P" (some (demoStats LOCKED)) "eth0" 50 LOCKED PtpClockClassChange).events,
      ¬ e.carriesState FREERUN) := by
  decide

/-- C17, amended: once the threshold stored for a profile is replaced by one with
max offset 10, `PtpThreshold` returns the new threshold for that profile, and
the next LOCKED sample for the profile at offset 50 on a record whose last
state is LOCKED, for whose event type a publisher is registered, leaves FREERUN
as last state, without panic; when moreover the manager is not in mock mode and
the event is created and sent without error, exactly one event is published,
which has the event type of the caller and carries the offset and, unless that
type is `PtpClockClassChange`, the state FREERUN. Under a threshold with max
offset 100 and min offset at most 50 the same sample publishes nothing and
leaves the record LOCKED. -/
theorem hot_swap_next_sample {R : Type} (addValue : R → Int → R) (p : PTPEventManager)
    (profileName : String) (t : PtpClockThreshold) (s : Stats R) (eventResourceName : String)
    (eventType : EventType) (pub : EventPublisherType)
    (hs : s.lastSyncState = LOCKED) (ht : t.MaxOffsetThreshold = 10)
    (hp : publisherOf p eventType = some pub) :
    PtpThreshold (swapThreshold p profileName t) profileName = t ∧
    ((GenPTPEvent addValue (swapThreshold p profileName t) profileName (some s)
          eventResourceName 50 LOCKED eventType).stats
        = some { s with lastSyncState := FREERUN, lastOffset := 50 } ∧
      (GenPTPEvent addValue (swapThreshold p profileName t) profileName (some s)
          eventResourceName 50 LOCKED eventType).recovered = none ∧
      (p.delivers →
        ∃ e, (GenPTPEvent addValue (swapThreshold p profileName t) profileName (some s)
            eventResourceName 50 LOCKED eventType).events = [e] ∧
          e.eventType = eventType ∧ e.carriesOffset 50 ∧
          (eventType ≠ PtpClockClassChange → e.carriesState FREERUN))) ∧
    ((PtpThreshold p profileName).MaxOffsetThreshold = 100 →
      (PtpThreshold p profileName).MinOffsetThreshold ≤ 50 →
      GenPTPEvent addValue p profileName (some s) eventResourceName 50 LOCKED eventType
        = { stats := some { lastSyncState := LOCKED, lastOffset := 50,
                            rest := addValue s.rest 50 }
            events := []
            recovered := none }) := by
  have hthr : PtpThreshold (swapThreshold p profileName t) profileName = t := by
    simp [PtpThreshold, swapThreshold, mapGet_mapSet_self]
  refine ⟨hthr, ?_, ?_⟩
  · have hout : isOffsetInRange 50
        (PtpThreshold (swapThreshold p profileName t) profileName).MaxOffsetThreshold
        (PtpThreshold (swapThreshold p profileName t) profileName).MinOffsetThreshold
        = false := by
      rw [hthr]
      simp [isOffsetInRange, ht]
    have hp' : publisherOf (swapThreshold p profileName t) eventType = some pub := hp
    have hgen : GenPTPEvent addValue (swapThreshold p profileName t) profileName (some s)
        eventResourceName 50 LOCKED eventType
        = publishThen
            (PublishEvent (swapThreshold p profileName t) FREERUN 50 eventResourceName eventType)
            s (fun s => (s.SetLastSyncState FREERUN).SetLastOffset 50) := by
      simp [GenPTPEvent, hs, hout, LOCKED, FREERUN]
    rw [hgen]
    exact publishThen_registered (swapThreshold p profileName t) FREERUN 50 eventResourceName
      eventType pub s _ (by decide) hp'
  · intro hmax hmin
    have hin : isOffsetInRange 50 (PtpThreshold p profileName).MaxOffsetThreshold
        (PtpThreshold p profileName).MinOffsetThreshold = true := by
      simp [isOffsetInRange, hmax, hmin]
    simp [GenPTPEvent, hs, hin, Stats.SetLastOffset, Stats.AddValue, LOCKED, FREERUN]

/-- C17, witness: the profile P of `thresholdManager` goes from -100/100 to
-10/10. -/
theorem hot_swap_next_sample_witness :
    (demoStats LOCKED).lastSyncState = LOCKED ∧
    narrowThreshold.MaxOffsetThreshold = 10 ∧
    publisherOf thresholdManager PtpStateChange = some demoPublisher ∧
    thresholdManager.delivers ∧
    (PtpThreshold thresholdManager "P").MaxOffsetThreshold = 100 ∧
    (PtpThreshold thresholdManager "P").MinOffsetThreshold ≤ 50 ∧
    PtpThreshold (swapThreshold thresholdManager "P" narrowThreshold) "P" = narrowThreshold ∧
    (GenPTPEvent countValue (swapThreshold thresholdManager "P" narrowThreshold) "P"
        (some (demoStats LOCKED)) "eth0" 50 LOCKED PtpStateChange).stats
      = some { demoStats LOCKED with lastSyncState := FREERUN, lastOffset := 50 } ∧
    (∃ e, (GenPTPEvent countValue (swapThreshold thresholdManager "P" narrowThreshold) "P"
        (some (demoStats LOCKED)) "eth0" 50 LOCKED PtpStateChange).events = [e] ∧
      e.eventType = PtpStateChange ∧ e.carriesOffset 50 ∧ e.carriesState FREERUN) ∧
    GenPTPEvent countValue thresholdManager "P" (some (demoStats LOCKED)) "eth0" 50 LOCKED
        PtpStateChange
      = { stats := some { lastSyncState := LOCKED, lastOffset := 50,
                          rest := countValue (demoStats LOCKED).rest 50 }
          events := []
          recovered := none } :=
  ⟨by decide, by decide, by decide, ⟨rfl, fun _ _ _ _ => rfl, fun _ => rfl⟩, by decide,
   by decide,
   (hot_swap_next_sample countValue thresholdManager "P" narrowThreshold (demoStats LOCKED)
      "eth0" PtpStateChange demoPublisher (by decide) (by decide) (by decide)).1,
   (hot_swap_next_sample countValue thresholdManager "P" narrowThreshold (demoStats LOCKED)
      "eth0" PtpStateChange demoPublisher (by decide) (by decide) (by decide)).2.1.1,
   ((hot_swap_next_sample countValue thresholdManager "P" narrowThreshold (demoStats LOCKED)
      "eth0" PtpStateChange demoPublisher (by decide) (by decide) (by decide)).2.1.2.2
      ⟨rfl, fun _ _ _ _ => rfl, fun _ => rfl⟩).imp
      fun _ he => ⟨he.1, he.2.1, he.2.2.1, he.2.2.2 (by decide)⟩,
   (hot_swap_next_sample countValue thresholdManager "P" narrowThreshold (demoStats LOCKED)
      "eth0" PtpStateChange demoPublisher (by decide) (by decide) (by decide)).2.2
      (by decide) (by decide)⟩

/-! ## Claim about announced and recorded state -/

/-- C21, counterexample: two calls that end without panic. In mock mode a FREERUN
sample on a LOCKED record publishes nothing, yet the last state becomes
FREERUN. Under the clock-class type, with a registered publisher, the same
sample publishes one event that announces no state, and the last state becomes
FREERUN; run after a LOCKED sample under the state-change type, the state
announced last is LOCKED while the record says FREERUN. -/
theorem recorded_state_not_announced :
    GenPTPEvent countValue mockManager "p" (some (demoStats LOCKED)) "eth0" 7 FREERUN
        PtpStateChange
      = { stats := some { lastSyncState := FREERUN, lastOffset := 7, rest := 1 },
          events := [], recovered := none } ∧
    (GenPTPEvent countValue clockClassManager "p" (some (demoStats LOCKED)) "eth0" 7 FREERUN
        PtpClockClassChange).recovered = none ∧
    (GenPTPEvent countValue clockClassManager "p" (some (demoStats LOCKED)) "eth0" 7 FREERUN
        PtpClockClassChange).events.map Event.announcedState = [none] ∧
    (GenPTPEvent countValue clockClassManager "p" (some (demoStats LOCKED)) "eth0" 7 FREERUN
        PtpClockClassChange).stats
      = some { lastSyncState := FREERUN, lastOffset := 7, rest := 1 } ∧
    GenPTPEventsAnnounced countValue (some (demoStats FREERUN)) none clockClassSamples
      = (some { lastSyncState := FREERUN, lastOffset := 7, rest := 2 }, some LOCKED) ∧
    ¬ agrees (GenPTPEventsAnnounced countValue (some (demoStats FREERUN)) none clockClassSamples).1
        (GenPTPEventsAnnounced countValue (some (demoStats FREERUN)) none clockClassSamples).2 := by
  decide

/-- C21, amended: a call of `GenPTPEvent` that ends without panic publishes at
most one event; when it publishes one, the last offset afterwards is the offset
of the sample, the event carries that offset, the last state afterwards is the
state the event carries unless the event is of the type `PtpClockClassChange`,
and the event carries no other state; when it publishes none and the manager is
not in mock mode and creates and sends events without error, the last state is
unchanged. Over any finite sequence of samples whose event type is not
`PtpClockClassChange` and whose managers are not in mock mode and create and
send events without error, panics included, an announced state that agrees with
the record at the start agrees at the end. -/
theorem announced_state_is_recorded {R : Type} (addValue : R → Int → R) (p : PTPEventManager)
    (ptpProfileName : String) (oStats : Option (Stats R)) (eventResourceName : String)
    (ptpOffset : Int) (clockState : SyncState) (eventType : EventType) :
    ((GenPTPEvent addValue p ptpProfileName oStats eventResourceName ptpOffset clockState
        eventType).recovered = none →
      (GenPTPEvent addValue p ptpProfileName oStats eventResourceName ptpOffset clockState
        eventType).events.length ≤ 1 ∧
      (∀ e, (GenPTPEvent addValue p ptpProfileName oStats eventResourceName ptpOffset clockState
          eventType).events = [e] →
        ∃ s', (GenPTPEvent addValue p ptpProfileName oStats eventResourceName ptpOffset
            clockState eventType).stats = some s' ∧
          s'.lastOffset = ptpOffset ∧
          e.carriesOffset ptpOffset ∧
          (e.eventType ≠ PtpClockClassChange → e.carriesState s'.lastSyncState) ∧
          (∀ state, e.carriesState state → state = s'.lastSyncState)) ∧
      ((GenPTPEvent addValue p ptpProfileName oStats eventResourceName ptpOffset clockState
          eventType).events = [] →
        p.delivers →
        (GenPTPEvent addValue p ptpProfileName oStats eventResourceName ptpOffset clockState
          eventType).stats.map (fun s => s.lastSyncState)
          = oStats.map (fun s => s.lastSyncState))) ∧
    (∀ (announced : Option SyncState) (samples : List Sample),
      (∀ x ∈ samples, x.eventType ≠ PtpClockClassChange ∧ x.manager.delivers) →
      agrees oStats announced →
      agrees (GenPTPEventsAnnounced addValue oStats announced samples).1
        (GenPTPEventsAnnounced addValue oStats announced samples).2) := by
  constructor
  · intro hrec
    cases oStats with
    | none =>
      by_cases hc : clockState = ""
      · simp [GenPTPEvent, hc]
      · simp [GenPTPEvent, hc] at hrec
    | some s =>
      rcases GenPTPEvent_cases addValue p ptpProfileName s eventResourceName ptpOffset
          clockState eventType with
        ⟨hev, s', hst, hlast⟩ |
        ⟨_, evs, state, publishedType, s', _, hs, hpub, hev, hst, hlast, hoff⟩
      · rw [hev, hst]
        simp [hlast]
      · rw [hev, hst]
        refine ⟨PublishEvent_length_le hpub, ?_, ?_⟩
        · intro e he
          subst he
          obtain ⟨_, hty, hdata⟩ := PublishEvent_mem hpub (List.mem_singleton.mpr rfl)
          obtain ⟨hcoff, hcst, honly, _⟩ := payload_facts hdata
          refine ⟨s', rfl, hoff, hcoff, ?_, ?_⟩
          · intro hne
            rw [hlast]
            exact hcst (hty ▸ hne)
          · intro st hst'
            rw [hlast]
            exact honly st hst'
        · intro he hd
          obtain ⟨e, he'⟩ := PublishEvent_ok_delivers hs hpub hd
          rw [he'] at he
          simp at he
  · intro announced samples
    induction samples generalizing oStats announced with
    | nil =>
      intro _ ha
      exact ha
    | cons x xs ih =>
      intro hx ha
      simp only [GenPTPEventsAnnounced]
      exact ih _ _ (fun y hy => hx y (List.mem_cons_of_mem x hy))
        (GenPTPEvent_step_agrees addValue x.manager x.ptpProfileName oStats x.eventResourceName
          x.ptpOffset x.clockState x.eventType announced (hx x (List.mem_cons_self x xs)).1
          (hx x (List.mem_cons_self x xs)).2 ha)

/-- C21, witness: a LOCKED sample at offset 500 on a LOCKED record publishes the
one FREERUN event and records FREERUN; the samples FREERUN/0 and LOCKED/42 under
the state-change type leave announced and recorded state in agreement. -/
theorem announced_state_is_recorded_witness :
    (GenPTPEvent countValue demoManager "p" (some (demoStats LOCKED)) "eth0" 500 LOCKED
        PtpStateChange).recovered = none ∧
    (GenPTPEvent countValue demoManager "p" (some (demoStats LOCKED)) "eth0" 500 LOCKED
        PtpStateChange).events.length ≤ 1 ∧
    (∀ x ∈ demoSamples, x.eventType ≠ PtpClockClassChange ∧ x.manager.delivers) ∧
    agrees (some (demoStats LOCKED)) (some LOCKED) ∧
    agrees (GenPTPEventsAnnounced countValue (some (demoStats LOCKED)) (some LOCKED) demoSamples).1
      (GenPTPEventsAnnounced countValue (some (demoStats LOCKED)) (some LOCKED) demoSamples).2 :=
  have hsamples : ∀ x ∈ demoSamples, x.eventType ≠ PtpClockClassChange ∧ x.manager.delivers := by
    intro x hx
    simp only [demoSamples, List.mem_cons, List.mem_singleton, List.not_mem_nil, or_false] at hx
    rcases hx with rfl | rfl
    · exact ⟨by decide, ⟨rfl, fun _ _ _ _ => rfl, fun _ => rfl⟩⟩
    · exact ⟨by decide, ⟨rfl, fun _ _ _ _ => rfl, fun _ => rfl⟩⟩
  ⟨by decide,
   ((announced_state_is_recorded countValue demoManager "p" (some (demoStats LOCKED)) "eth0" 500
      LOCKED PtpStateChange).1 (by decide)).1,
   hsamples, by decide,
   (announced_state_is_recorded countValue demoManager "p" (some (demoStats LOCKED)) "eth0" 500
      LOCKED PtpStateChange).2 (some LOCKED) demoSamples hsamples (by decide)⟩

end Metrics
